import Mathlib

/-!
Shallow embedding of the extraction core of `xml_analyzer_gui.py` (class
`EAXMLAnalyzer`, lines 12-640) and verification of the frozen claims about it.

An XML document parsed by `xml.etree.ElementTree` is modelled flatly, as the
list of its nodes in document (pre-order) order; each node carries the path of
child indices leading to it from the root.  The path doubles as the node's
transient identity, standing in for CPython's `id(node)`: two distinct live
nodes of one parse have distinct paths, and the analyzer only ever uses
`id(...)` for deduplication and for last-resort synthesized identifiers.

Python-specific semantics that the source leans on are modelled explicitly:
  * string truthiness (`None` and `''` are falsy) in the ubiquitous
    `a or b` attribute fallback chains,
  * `xml.etree` Element truthiness (an element with no child elements is
    falsy), which the source hits in `find(..) or find(..)` expressions,
  * `xml.etree` path compilation, which raises `SyntaxError` for a
    namespace-prefixed step (`xmi:Extension`) when no prefix map is passed,
  * `base64.b64decode(s, validate=True)` of CPython 3.11+, i.e.
    `binascii.a2b_base64(s, strict_mode=True)`,
  * codec behaviour of `bytes.decode` for `utf-8` (strict and
    `errors='ignore'`) and `latin-1` (total on all byte values).
-/

/-- One node of a parsed XML document: its path from the root (the root has
path `[]`, its i-th child path `[i]`, and so on), its tag, its attributes and
its text.  A document is its pre-order node list. -/
structure XEntry where
  path : List Nat
  tag : String
  attrs : List (String × String)
  text : Option String
deriving Repr, DecidableEq

/-- A parsed document: the nodes in document order, the root (path `[]`)
first.  This list is exactly what `root.iter()` yields. -/
abbrev XDoc := List XEntry

/-- `elem.get(a)`: attribute lookup, `None` when absent. -/
def XEntry.get (e : XEntry) (a : String) : Option String :=
  (e.attrs.find? (fun kv => kv.1 = a)).map (fun kv => kv.2)

/-- `elem.get(a, d)`: attribute lookup with a default. -/
def XEntry.getD (e : XEntry) (a d : String) : String :=
  (e.get a).getD d

/-- Python string truthiness of an optional string: `None` and `''` are
falsy, every other string truthy. -/
def truthy : Option String → Bool
  | none => false
  | some s => !(s == "")

/-- `a or b` on optional strings, with Python truthiness: keeps `a` when it is
a non-empty string, otherwise yields `b` (even when `b` is falsy). -/
def pyOr (a b : Option String) : Option String :=
  if truthy a then a else b

/-- `a or d` where the right operand is a plain (always returned) string. -/
def pyOrS (a : Option String) (d : String) : String :=
  match a with
  | some s => if s = "" then d else s
  | none => d

/-- `p` is a strict prefix of `q`: the node at `q` lies strictly below the
node at `p` in the tree. -/
def strictBelow (p q : List Nat) : Bool :=
  p.isPrefixOf q && decide (p.length < q.length)

/-- All strict descendants of the node at path `p`, in document order. -/
def descendantsOf (doc : XDoc) (p : List Nat) : List XEntry :=
  doc.filter (fun e => strictBelow p e.path)

/-- `node.findall('.//t')`: every strict descendant tagged `t`, in document
order. -/
def findallDesc (doc : XDoc) (p : List Nat) (t : String) : List XEntry :=
  (descendantsOf doc p).filter (fun e => e.tag = t)

/-- `node.find('.//t')`: the first strict descendant tagged `t`, if any. -/
def findDesc (doc : XDoc) (p : List Nat) (t : String) : Option XEntry :=
  (findallDesc doc p t).head?

/-- Tag of the node at a given path, if the document has one there. -/
def tagOfPath (doc : XDoc) (q : List Nat) : Option String :=
  (doc.find? (fun e => e.path = q)).map (fun e => e.tag)

/-- `node.findall('.//a/b')`: every `b`-tagged child of an `a`-tagged strict
descendant of the node, in document order. -/
def findallDescPair (doc : XDoc) (p : List Nat) (a b : String) : List XEntry :=
  (descendantsOf doc p).filter (fun e =>
    e.tag = b && !e.path.isEmpty && tagOfPath doc e.path.dropLast = some a
      && strictBelow p e.path.dropLast)

/-- `node.findall('.//a//b')`: every `b`-tagged strict descendant of an
`a`-tagged strict descendant of the node, in document order. -/
def findallDescDesc (doc : XDoc) (p : List Nat) (a b : String) : List XEntry :=
  (descendantsOf doc p).filter (fun e =>
    e.tag = b && (descendantsOf doc p).any (fun m =>
      m.tag = a && strictBelow m.path e.path))

/-- `node.findall('.//a//b//c')` (used once, for `.//EAP//diagrams//diagram`). -/
def findallDescChain3 (doc : XDoc) (p : List Nat) (a b c : String) : List XEntry :=
  (descendantsOf doc p).filter (fun e =>
    e.tag = c && (descendantsOf doc p).any (fun m =>
      m.tag = b && strictBelow m.path e.path && (descendantsOf doc p).any (fun n =>
        n.tag = a && strictBelow n.path m.path)))

/-- Does the node at path `p` have at least one child element?  This is
CPython `bool(element)` for `xml.etree` elements: an element with no child
elements is falsy (its text and attributes do not matter). -/
def hasChildElem (doc : XDoc) (p : List Nat) : Bool :=
  doc.any (fun c => c.path.length = p.length + 1 && p.isPrefixOf c.path)

/-- `find(..) or find(..)` on two optional elements, with `xml.etree` Element
truthiness: the left element is kept only when it has child elements. -/
def pyOrNode (doc : XDoc) (a b : Option XEntry) : Option XEntry :=
  match a with
  | some e => if hasChildElem doc e.path then some e else b
  | none => b

/-- The closing-brace character, written by code point to keep it out of
string literals. -/
def rbraceChar : Char := Char.ofNat 125

/-- `tag.split(closing-brace)[-1]`: the segment of a string after its last
closing brace (the whole string when there is none); `xml.etree` spells a
namespaced tag as the namespace URI in braces followed by the local name. -/
def afterLastBrace (l : List Char) : List Char :=
  l.foldl (fun acc c => if c = rbraceChar then [] else acc ++ [c]) []

/-- `elem.tag.split(closing-brace)[-1]`: the local tag name. -/
def localName (t : String) : String :=
  String.mk (afterLastBrace t.data)

/-- `elem.tag.split(closing-brace)[-1].lower()`: the lower-cased local tag
name (the source only ever feeds it ASCII tags). -/
def localLower (t : String) : String :=
  String.mk ((afterLastBrace t.data).map Char.toLower)

/-- `str(id(node))` of a node that lacks a usable id attribute: an opaque
string derived from the node's transient identity, here the path.  Written in
a unary alphabet so that it evaluates without string conversion machinery;
only its derivation from the node identity matters to the analyzer. -/
def synthId (p : List Nat) : String :=
  String.mk ('#' :: p.flatMap (fun i => '.' :: List.replicate i 'i'))

/-! ## Python dict / Counter / set semantics -/

/-- `d[k] = v` on a Python dict modelled as an insertion-ordered association
list: overwrite in place when the key is present, append otherwise. -/
def dictSet {K V : Type} [DecidableEq K] (d : List (K × V)) (k : K) (v : V) :
    List (K × V) :=
  if d.any (fun kv => kv.1 = k) then
    d.map (fun kv => if kv.1 = k then (k, v) else kv)
  else d ++ [(k, v)]

/-- Lookup in a Python dict modelled as an association list. -/
def dictGet {K V : Type} [DecidableEq K] (d : List (K × V)) (k : K) : Option V :=
  (d.find? (fun kv => kv.1 = k)).map (fun kv => kv.2)

/-- `k in d` on a Python dict. -/
def dictHas {K V : Type} [DecidableEq K] (d : List (K × V)) (k : K) : Bool :=
  d.any (fun kv => kv.1 = k)

/-- Update the value stored under `k`, when present. -/
def dictUpdate {K V : Type} [DecidableEq K] (d : List (K × V)) (k : K)
    (f : V → V) : List (K × V) :=
  d.map (fun kv => if kv.1 = k then (kv.1, f kv.2) else kv)

/-- `counter[k] += 1` on a `collections.Counter`. -/
def counterIncr {K : Type} [DecidableEq K] (d : List (K × Nat)) (k : K) :
    List (K × Nat) :=
  dictSet d k ((dictGet d k).getD 0 + 1)

/-- `defaultdict(list)[k].append(v)`. -/
def dictAppend {K V : Type} [DecidableEq K] (d : List (K × List V)) (k : K)
    (v : V) : List (K × List V) :=
  dictSet d k ((dictGet d k).getD [] ++ [v])

/-- `s.add(x)` on a Python set, modelled as a duplicate-free list. -/
def setAdd (s : List String) (x : String) : List String :=
  if s.contains x then s else s ++ [x]

/-! ## Entity records (`pkg_info` / `elem_info` / ... dictionaries) -/

/-- `attr_info` built by `_extract_attributes`. -/
structure AttrInfo where
  id : Option String
  name : String
  type : Option String
  visibility : Option String
  static : Bool
  dflt : Option String
  notes : String
  stereotype : Option String
deriving Repr, DecidableEq

/-- `param_info` built inside `_extract_operations`. -/
structure ParamInfo where
  name : Option String
  type : Option String
  kind : Option String
  dflt : Option String
deriving Repr, DecidableEq

/-- `op_info` built by `_extract_operations`. -/
structure OpInfo where
  id : Option String
  name : String
  type : Option String
  visibility : Option String
  static : Bool
  abstract : Bool
  notes : String
  stereotype : Option String
  parameters : List ParamInfo
deriving Repr, DecidableEq

/-- `pkg_info` built by `_extract_packages`. -/
structure PkgInfo where
  id : String
  name : String
  parent_id : Option String
  stereotype : Option String
  notes : String
  created : Option String
  modified : Option String
  author : Option String
  version : Option String
  elements : List String
  sub_packages : List String
deriving Repr, DecidableEq

/-- `tag_info` built by `_extract_tagged_values`. -/
structure TagInfo where
  name : Option String
  value : Option String
  notes : String
deriving Repr, DecidableEq

/-- `elem_info` built by `_extract_elements`. -/
structure ElemInfo where
  id : String
  name : String
  type : String
  package_id : Option String
  stereotype : Option String
  notes : String
  abstract : Bool
  visibility : Option String
  created : Option String
  modified : Option String
  author : Option String
  version : Option String
  complexity : Option String
  status : Option String
  attributes : List AttrInfo
  operations : List OpInfo
  tagged_values : List TagInfo
deriving Repr, DecidableEq

/-- Role descriptor (`source_role` / `target_role`) of a connector. -/
structure RoleInfo where
  name : Option String
  multiplicity : Option String
  visibility : Option String
deriving Repr, DecidableEq

/-- `conn_info` built by `_extract_connectors`; its id has no synthesized
fallback and can be `None`. -/
structure ConnInfo where
  id : Option String
  name : Option String
  type : Option String
  source_id : Option String
  target_id : Option String
  direction : Option String
  stereotype : Option String
  notes : String
  source_role : Option RoleInfo
  target_role : Option RoleInfo
deriving Repr, DecidableEq

/-- `diag_elem_info` built by `_extract_diagram_elements`. -/
structure DiagElemInfo where
  element_id : Option String
  geometry : Option String
  style : Option String
  left : Option String
  top : Option String
  right : Option String
  bottom : Option String
  sequence : Option String
deriving Repr, DecidableEq

/-- `diag_info` built by `_extract_diagrams`. -/
structure DiagInfo where
  id : String
  name : String
  type : String
  package_id : Option String
  author : Option String
  created : Option String
  modified : Option String
  version : Option String
  notes : String
  elements : List DiagElemInfo
  has_image : Bool
  image_data : Option String
  image_format : Option String
  style_ex : Option String
  swim_lanes : Option String
  scale : Option String
deriving Repr, DecidableEq

/-- `model_info` fields set by `_extract_model_info`. -/
structure ModelInfo where
  name : Option String
  id : Option String
  type : Option String
  created : Option String
  modified : Option String
  documentation : Option String
deriving Repr, DecidableEq

/-- The analyzer's per-run state as left by `reset()` and mutated by the
extractors: the entity collections, the accumulator sets and the `stats`
dictionary. -/
structure AnalyzerState where
  packages : List (String × PkgInfo)
  elements : List (String × ElemInfo)
  diagrams : List (String × DiagInfo)
  connectors : List (Option String × ConnInfo)
  tagged_values : List (String × List TagInfo)
  model_info : ModelInfo
  authors : List String
  versions : List String
  total_packages : Nat
  total_elements : Nat
  total_diagrams : Nat
  total_connectors : Nat
  element_types : List (String × Nat)
  diagram_types : List (String × Nat)
  connector_types : List (Option String × Nat)
deriving Repr, DecidableEq

/-- `reset()`: all collections empty, all totals zero. -/
def initState : AnalyzerState :=
  ⟨[], [], [], [], [], ⟨none, none, none, none, none, none⟩, [], [],
    0, 0, 0, 0, [], [], []⟩

/-! ## `_extract_notes` (lines 617-622) -/

/-- `_extract_notes`: `element.find('.//Notes') or element.find('.//Documentation')`
with Element truthiness, then the found element's `text or ''`, else the
node's own `Notes` attribute with default `''`. -/
def extract_notes (doc : XDoc) (e : XEntry) : String :=
  let notes_elem := pyOrNode doc (findDesc doc e.path "Notes")
    (findDesc doc e.path "Documentation")
  match notes_elem with
  | some ne => pyOrS ne.text ""
  | none => e.getD "Notes" ""

/-! ## `_extract_model_info` (lines 145-186) -/

/-- Nodes whose lower-cased local tag is `model` or `documentation`, in
document order (`model_candidates`). -/
def modelCandidates (doc : XDoc) : List XEntry :=
  doc.filter (fun e =>
    localLower e.tag = "model" || localLower e.tag = "documentation")

/-- The loop over `model_candidates`: a `documentation` node with truthy text
stores it; the first `model` node stores name/id/type/created/modified and
breaks. -/
def modelInfoLoop (mi : ModelInfo) : List XEntry → ModelInfo
  | [] => mi
  | e :: rest =>
    if localLower e.tag = "documentation" then
      if truthy e.text then modelInfoLoop { mi with documentation := e.text } rest
      else modelInfoLoop mi rest
    else if localLower e.tag = "model" then
      { mi with
        name := some (pyOrS (pyOr (e.get "name") (pyOr (e.get "Name") (e.get "xmi.name"))) "Unnamed Model")
        id := pyOr (e.get "xmi.id") (pyOr (e.get "id") (e.get "Id"))
        type := some (pyOrS (pyOr (e.get "Type") (e.get "type")) "UML Model")
        created := pyOr (e.get "Created") (e.get "created")
        modified := pyOr (e.get "Modified") (e.get "modified") }
    else modelInfoLoop mi rest

/-- The root node of the parsed tree (path `[]`). -/
def rootEntry (doc : XDoc) : XEntry :=
  (doc.find? (fun e => e.path = [])).getD ⟨[], "", [], none⟩

/-- `_extract_model_info`: run the candidate loop, then fall back to the root
element's own name when no truthy name was found. -/
def extract_model_info (doc : XDoc) (st : AnalyzerState) : AnalyzerState :=
  let mi := modelInfoLoop st.model_info (modelCandidates doc)
  let mi :=
    if truthy mi.name then mi
    else
      { mi with
        name := some (pyOrS (pyOr ((rootEntry doc).get "name") ((rootEntry doc).get "Name")) "Extracted Model")
        type := some ("XML Root: " ++ localName (rootEntry doc).tag) }
  { st with model_info := mi }

/-! ## `_extract_packages` (lines 188-231) -/

/-- Package recognition (lines 194-202): local tag `package`/`packages`, or
else a truthy `Name` attribute together with a truthy `PackageID` attribute. -/
def isPackageCandidate (e : XEntry) : Bool :=
  let tag_name := localLower e.tag
  if tag_name = "package" || tag_name = "packages" then true
  else truthy (e.get "Name") && truthy (e.get "PackageID")

/-- `package_candidates`, in `root.iter()` order. -/
def packageCandidates (doc : XDoc) : List XEntry :=
  doc.filter isPackageCandidate

/-- `pkg_info` for one candidate (lines 204-219). -/
def mkPkgInfo (doc : XDoc) (e : XEntry) : PkgInfo :=
  { id := pyOrS (pyOr (e.get "Id") (pyOr (e.get "id") (e.get "xmi.id"))) (synthId e.path)
    name := pyOrS (pyOr (e.get "Name") (e.get "name")) "Unnamed Package"
    parent_id := pyOr (e.get "ParentID") (pyOr (e.get "parent") (e.get "owner"))
    stereotype := pyOr (e.get "Stereotype") (e.get "stereotype")
    notes := extract_notes doc e
    created := pyOr (e.get "Created") (e.get "created")
    modified := pyOr (e.get "Modified") (e.get "modified")
    author := pyOr (e.get "Author") (e.get "author")
    version := pyOr (e.get "Version") (e.get "version")
    elements := []
    sub_packages := [] }

/-- One iteration of the package loop (lines 221-228): track author/version,
store under `pkg_info['id']`, bump `total_packages`. -/
def pkgStep (doc : XDoc) (st : AnalyzerState) (e : XEntry) : AnalyzerState :=
  let info := mkPkgInfo doc e
  { st with
    authors := if truthy info.author then setAdd st.authors (info.author.getD "")
      else st.authors
    versions := if truthy info.version then setAdd st.versions (info.version.getD "")
      else st.versions
    packages := dictSet st.packages info.id info
    total_packages := st.total_packages + 1 }

/-- `_extract_packages`. -/
def extract_packages (doc : XDoc) (st : AnalyzerState) : AnalyzerState :=
  (packageCandidates doc).foldl (pkgStep doc) st

/-! ## `_extract_attributes` / `_extract_operations` (lines 297-342) -/

/-- `attr_info` for one attribute node. -/
def mkAttrInfo (doc : XDoc) (a : XEntry) : AttrInfo :=
  { id := pyOr (a.get "Id") (a.get "id")
    name := pyOrS (a.get "Name") (a.getD "name" "unnamed")
    type := pyOr (a.get "Type") (a.get "type")
    visibility := pyOr (a.get "Visibility") (a.get "visibility")
    static := a.get "Static" = some "true"
    dflt := a.get "Default"
    notes := extract_notes doc a
    stereotype := a.get "Stereotype" }

/-- `_extract_attributes`: `element.findall('.//Attributes/Attribute') +
element.findall('.//Attribute')`, each mapped to an `attr_info`. -/
def extract_attributes (doc : XDoc) (e : XEntry) : List AttrInfo :=
  (findallDescPair doc e.path "Attributes" "Attribute"
    ++ findallDesc doc e.path "Attribute").map (mkAttrInfo doc)

/-- `param_info` for one parameter node. -/
def mkParamInfo (p : XEntry) : ParamInfo :=
  { name := pyOr (p.get "Name") (p.get "name")
    type := pyOr (p.get "Type") (p.get "type")
    kind := p.get "Kind"
    dflt := p.get "Default" }

/-- `op_info` for one operation node, with its parameter list. -/
def mkOpInfo (doc : XDoc) (o : XEntry) : OpInfo :=
  { id := pyOr (o.get "Id") (o.get "id")
    name := pyOrS (o.get "Name") (o.getD "name" "unnamed")
    type := pyOr (o.get "Type") (o.get "type")
    visibility := pyOr (o.get "Visibility") (o.get "visibility")
    static := o.get "Static" = some "true"
    abstract := o.get "Abstract" = some "true"
    notes := extract_notes doc o
    stereotype := o.get "Stereotype"
    parameters :=
      (findallDescPair doc o.path "Parameters" "Parameter"
        ++ findallDesc doc o.path "Parameter").map mkParamInfo }

/-- `_extract_operations`. -/
def extract_operations (doc : XDoc) (e : XEntry) : List OpInfo :=
  (findallDescPair doc e.path "Operations" "Operation"
    ++ findallDesc doc e.path "Operation").map (mkOpInfo doc)

/-! ## `_extract_elements` (lines 233-295) -/

/-- Tag keyword set for element recognition (lines 243-244). -/
def elementKeywords : List String :=
  ["element", "class", "component", "actor", "usecase",
   "interface", "object", "node", "artifact"]

/-- `Type`-attribute value set for element recognition (lines 248-249). -/
def elementTypeNames : List String :=
  ["Class", "Component", "Actor", "UseCase",
   "Interface", "Object", "Node", "Artifact"]

/-- Element recognition (lines 239-250): local tag in the keyword set, or
else truthy `Name` and a truthy `Type` whose value is a known classifier. -/
def isElementCandidate (e : XEntry) : Bool :=
  let tag_name := localLower e.tag
  if elementKeywords.contains tag_name then true
  else truthy (e.get "Name") && truthy (e.get "Type")
    && elementTypeNames.contains ((e.get "Type").getD "")

/-- `element_candidates`, in `root.iter()` order. -/
def elementCandidates (doc : XDoc) : List XEntry :=
  doc.filter isElementCandidate

/-- `elem_info` for one candidate (lines 252-282), attribute and operation
sub-extraction included. -/
def mkElemInfo (doc : XDoc) (e : XEntry) : ElemInfo :=
  { id := pyOrS (pyOr (e.get "Id") (pyOr (e.get "id") (e.get "xmi.id"))) (synthId e.path)
    name := pyOrS (pyOr (e.get "Name") (e.get "name")) "Unnamed Element"
    type := pyOrS (pyOr (e.get "Type") (e.get "type")) (localName e.tag)
    package_id := pyOr (e.get "PackageID") (pyOr (e.get "package") (e.get "owner"))
    stereotype := pyOr (e.get "Stereotype") (e.get "stereotype")
    notes := extract_notes doc e
    abstract := e.get "Abstract" = some "true" || e.get "isAbstract" = some "true"
    visibility := pyOr (e.get "Visibility") (e.get "visibility")
    created := pyOr (e.get "Created") (e.get "created")
    modified := pyOr (e.get "Modified") (e.get "modified")
    author := pyOr (e.get "Author") (e.get "author")
    version := pyOr (e.get "Version") (e.get "version")
    complexity := e.get "Complexity"
    status := pyOr (e.get "Status") (e.get "status")
    attributes := extract_attributes doc e
    operations := extract_operations doc e
    tagged_values := [] }

/-- One iteration of the element loop (lines 284-292): bump the type counter,
track author/version, store under `elem_info['id']`, bump `total_elements`. -/
def elemStep (doc : XDoc) (st : AnalyzerState) (e : XEntry) : AnalyzerState :=
  let info := mkElemInfo doc e
  { st with
    element_types := counterIncr st.element_types info.type
    authors := if truthy info.author then setAdd st.authors (info.author.getD "")
      else st.authors
    versions := if truthy info.version then setAdd st.versions (info.version.getD "")
      else st.versions
    elements := dictSet st.elements info.id info
    total_elements := st.total_elements + 1 }

/-- `_extract_elements`. -/
def extract_elements (doc : XDoc) (st : AnalyzerState) : AnalyzerState :=
  (elementCandidates doc).foldl (elemStep doc) st

/-! ## `_extract_connectors` (lines 555-597) -/

/-- `root.findall('.//Connectors/Connector') + root.findall('.//Connector')`
(lines 557-560); a connector nested in a `Connectors` container matches both
paths and appears twice. -/
def connectorCandidates (doc : XDoc) : List XEntry :=
  findallDescPair doc [] "Connectors" "Connector" ++ findallDesc doc [] "Connector"

/-- The id a connector is stored under: `conn.get('Id') or conn.get('id')`,
with no synthesized fallback (line 564). -/
def connKey (e : XEntry) : Option String :=
  pyOr (e.get "Id") (e.get "id")

/-- Role sub-node extraction (lines 577-591):
`conn.find('.//SourceRole') or conn.find('.//Source')` with Element
truthiness, and the analogous `TargetRole`/`Target` pair. -/
def mkRoleInfo (r : XEntry) : RoleInfo :=
  { name := pyOr (r.get "Name") (r.get "name")
    multiplicity := r.get "Multiplicity"
    visibility := r.get "Visibility" }

/-- `conn_info` for one connector node (lines 562-591). -/
def mkConnInfo (doc : XDoc) (e : XEntry) : ConnInfo :=
  { id := connKey e
    name := pyOr (e.get "Name") (e.get "name")
    type := pyOr (e.get "Type") (e.get "type")
    source_id := pyOr (e.get "SourceID") (e.get "source")
    target_id := pyOr (e.get "TargetID") (e.get "target")
    direction := e.get "Direction"
    stereotype := e.get "Stereotype"
    notes := extract_notes doc e
    source_role :=
      (pyOrNode doc (findDesc doc e.path "SourceRole")
        (findDesc doc e.path "Source")).map mkRoleInfo
    target_role :=
      (pyOrNode doc (findDesc doc e.path "TargetRole")
        (findDesc doc e.path "Target")).map mkRoleInfo }

/-- One iteration of the connector loop (lines 593-597): bump the type
counter, store under `conn_info['id']` (possibly `None`), bump
`total_connectors`. -/
def connStep (doc : XDoc) (st : AnalyzerState) (e : XEntry) : AnalyzerState :=
  let info := mkConnInfo doc e
  { st with
    connector_types := counterIncr st.connector_types info.type
    connectors := dictSet st.connectors info.id info
    total_connectors := st.total_connectors + 1 }

/-- `_extract_connectors`. -/
def extract_connectors (doc : XDoc) (st : AnalyzerState) : AnalyzerState :=
  (connectorCandidates doc).foldl (connStep doc) st

/-! ## `_extract_tagged_values` (lines 599-615) -/

/-- `root.findall('.//TaggedValues/TaggedValue') + root.findall('.//TaggedValue')`. -/
def taggedValueCandidates (doc : XDoc) : List XEntry :=
  findallDescPair doc [] "TaggedValues" "TaggedValue"
    ++ findallDesc doc [] "TaggedValue"

/-- One iteration of the tagged-value loop: build `tag_info` and, when the
owning `element_id` is truthy, append it to the per-element index. -/
def tagStep (doc : XDoc) (st : AnalyzerState) (tv : XEntry) : AnalyzerState :=
  let element_id := pyOr (tv.get "ElementID") (tv.get "element")
  let info : TagInfo :=
    { name := pyOr (tv.get "Name") (tv.get "name")
      value := pyOr (tv.get "Value") (pyOr (tv.get "value") tv.text)
      notes := extract_notes doc tv }
  { st with
    tagged_values :=
      if truthy element_id then dictAppend st.tagged_values (element_id.getD "") info
      else st.tagged_values }

/-- `_extract_tagged_values`. -/
def extract_tagged_values (doc : XDoc) (st : AnalyzerState) : AnalyzerState :=
  (taggedValueCandidates doc).foldl (tagStep doc) st

/-! ## `_calculate_stats` (lines 624-639) -/

/-- `_calculate_stats`: the three post-hoc link-back passes.  Totals and type
counters were already accumulated during extraction and are untouched here. -/
def calculate_stats (st : AnalyzerState) : AnalyzerState :=
  -- Build package hierarchy (lines 627-629); `parent_id` fields are never
  -- mutated by the pass, so folding over the pre-pass item list is exact.
  let pkgs := st.packages.foldl (fun acc kv =>
    match kv.2.parent_id with
    | some pid =>
      if pid ≠ "" ∧ dictHas acc pid then
        dictUpdate acc pid (fun p => { p with sub_packages := p.sub_packages ++ [kv.1] })
      else acc
    | none => acc) st.packages
  -- Link elements to packages (lines 632-634).
  let pkgs := st.elements.foldl (fun acc kv =>
    match kv.2.package_id with
    | some pid =>
      if pid ≠ "" ∧ dictHas acc pid then
        dictUpdate acc pid (fun p => { p with elements := p.elements ++ [kv.1] })
      else acc
    | none => acc) pkgs
  -- Attach tagged values to elements (lines 637-639).
  let elems := st.elements.map (fun kv =>
    match dictGet st.tagged_values kv.1 with
    | some tvs => (kv.1, { kv.2 with tagged_values := tvs })
    | none => kv)
  { st with packages := pkgs, elements := elems }

/-! ## `_is_base64` (lines 522-537) and `base64.b64decode(s, validate=True)` -/

/-- `string.ascii_letters + string.digits + '+/='`: the character set the
source checks membership in before attempting a decode. -/
def base64Chars : List Char :=
  "abcdefghijklmnopqrstuvwxyzABCDEFGHIJKLMNOPQRSTUVWXYZ0123456789+/=".data

/-- A base64 data character (the alphabet without the padding mark). -/
def b64DataChar (c : Char) : Bool :=
  ('A' ≤ c && c ≤ 'Z') || ('a' ≤ c && c ≤ 'z') || ('0' ≤ c && c ≤ '9')
    || c = '+' || c = '/'

/-- Does `binascii.a2b_base64(s, strict_mode=True)` succeed?  This is the
check behind `base64.b64decode(s, validate=True)` (CPython 3.11+).  State:
`first` marks the very first input character (a pad there is "leading
padding"), `quadPos` counts data characters modulo 4, `pads` counts the pad
run of a quad begun with 2 or 3 data characters, `padStarted` records that a
pad has been seen (a later data character is "discontinuous padding").
Verified against CPython 3.11 on: `AAAA`, `AAA`, `AA`, `AA==`, `AA=`, `A===`,
`====`, `AAAA=`, `AAAA====`, `ABC=`, `ABC==`, `AB======`, `AB=A`, `AAAA=A`,
`AAAAA===`, `AAAAAB==`, `aGVsbG8=`. -/
def a2bStrictOk (first : Bool) (quadPos pads : Nat) (padStarted : Bool) :
    List Char → Bool
  | [] => quadPos = 0
  | c :: rest =>
    if c = '=' then
      if first then false
      else if 2 ≤ quadPos then
        if 4 ≤ quadPos + pads + 1 then rest.isEmpty
        else a2bStrictOk false quadPos (pads + 1) true rest
      else a2bStrictOk false quadPos pads true rest
    else if b64DataChar c then
      if padStarted then false
      else a2bStrictOk false ((quadPos + 1) % 4) 0 false rest
    else false

/-- `base64.b64decode(s, validate=True)` succeeds (no exception raised). -/
def b64decodeValidateOk (s : String) : Bool :=
  a2bStrictOk true 0 0 false s.data

/-- `_is_base64`: too short, or a character outside
`string.ascii_letters + string.digits + '+/='`, or a failing strict decode,
each yield `False`; otherwise `True` (the `try/except` only turns the decode
error into `False`). -/
def is_base64 (s : String) : Bool :=
  if s.length < 4 then false
  else if !(s.data.all (fun c => base64Chars.contains c)) then false
  else b64decodeValidateOk s

/-! ## `_detect_image_format` (lines 539-553) and small string helpers -/

/-- Substring containment, `sub in s` on Python strings. -/
def isSubstr (sub s : List Char) : Bool :=
  s.tails.any (fun t => sub.isPrefixOf t)

/-- `s.strip()` (the payloads the analyzer strips are ASCII; Lean's
whitespace set covers the characters that occur). -/
def pyStrip (s : String) : String :=
  String.mk ((s.data.dropWhile Char.isWhitespace).reverse.dropWhile
    Char.isWhitespace).reverse

/-- `_detect_image_format`: sub-format from the candidate's own tag name. -/
def detect_image_format (tag_name : String) : String :=
  let tag_lower := String.mk (tag_name.data.map Char.toLower)
  if isSubstr "png".data tag_lower.data then "png"
  else if isSubstr "jpg".data tag_lower.data || isSubstr "jpeg".data tag_lower.data then "jpeg"
  else if isSubstr "bmp".data tag_lower.data then "bmp"
  else if isSubstr "metafile".data tag_lower.data || isSubstr "emf".data tag_lower.data
      || isSubstr "wmf".data tag_lower.data then "metafile"
  else if isSubstr "image".data tag_lower.data then "image"
  else "unknown"

/-! ## `_extract_diagram_elements` (lines 424-449) -/

/-- `diag_elem_info` for one placement node. -/
def mkDiagElemInfo (de : XEntry) : DiagElemInfo :=
  { element_id := pyOr (de.get "ElementID") (pyOr (de.get "element")
      (pyOr (de.get "Object_ID") (de.get "objectId")))
    geometry := pyOr (de.get "Geometry") (de.get "geometry")
    style := pyOr (de.get "Style") (de.get "style")
    left := de.get "left"
    top := de.get "top"
    right := de.get "right"
    bottom := de.get "bottom"
    sequence := de.get "Sequence" }

/-- The six placement search patterns (`element_sources`), concatenated in
order with no de-duplication: a node matched by several patterns is appended
once per matching pattern. -/
def diagramElementSources (doc : XDoc) (p : List Nat) : List XEntry :=
  findallDescPair doc p "DiagramElements" "DiagramElement"
    ++ findallDesc doc p "DiagramElement"
    ++ findallDescPair doc p "elements" "element"
    ++ findallDesc doc p "diagramElement"
    ++ findallDescPair doc p "DiagramObjects" "DiagramObject"
    ++ findallDesc doc p "DiagramObject"

/-- `_extract_diagram_elements`: every matched placement node, mapped to its
`diag_elem_info` and appended to the diagram's list. -/
def extract_diagram_elements (doc : XDoc) (d : XEntry) : List DiagElemInfo :=
  (diagramElementSources doc d.path).map mkDiagElemInfo

/-! ## `xml.etree` path compilation with a namespace prefix -/

/-- Resolving a `pfx:`-prefixed path step against the namespaces mapping
passed to `find`/`findall`; `xml.etree.ElementPath` raises
`SyntaxError: prefix 'pfx' not found in prefix map` when the mapping (an
empty one included) has no entry for the prefix. -/
def etResolvePfx (nsmap : List (String × String)) (pfx : String) :
    Except String String :=
  match nsmap.find? (fun kv => kv.1 = pfx) with
  | some kv => Except.ok kv.2
  | none => Except.error ("SyntaxError: prefix " ++ pfx ++ " not found in prefix map")

/-- The `xml.etree` spelling of a namespaced tag: the URI in braces, then the
local name (braces written by code point). -/
def nsTag (uri localPart : String) : String :=
  String.mk (Char.ofNat 123 :: uri.data ++ rbraceChar :: localPart.data)

/-- `node.find('.//xmi:Extension//image', nsmap)` — the call in
`_extract_diagram_image_enhanced` passes no mapping, so compiling the path
raises before any matching is attempted. -/
def findXmiExtensionImage (nsmap : List (String × String)) (doc : XDoc)
    (p : List Nat) : Except String (Option XEntry) :=
  match etResolvePfx nsmap "xmi" with
  | Except.ok uri =>
    Except.ok (findallDescDesc doc p (nsTag uri "Extension") "image").head?
  | Except.error m => Except.error m

/-- `root.findall('.//xmi:Extension//diagrams')` — the call in
`_extract_diagrams` (line 365), likewise made without a mapping. -/
def findallXmiExtensionDiagrams (nsmap : List (String × String)) (doc : XDoc) :
    Except String (List XEntry) :=
  match etResolvePfx nsmap "xmi" with
  | Except.ok uri =>
    Except.ok (findallDescDesc doc [] (nsTag uri "Extension") "diagrams")
  | Except.error m => Except.error m

/-! ## `_extract_diagram_image_enhanced` (lines 451-520) -/

/-- The first loop over the evaluated `image_sources` (lines 475-504): skip
missing candidates; for a present one take `text or get('data') or
get('content')` and, when truthy with a non-empty strip, classify as base64
image / metafile / unknown binary, stopping at the first classification; a
candidate that classifies as nothing falls through to the next. -/
def classifyImageSources (srcs : List (Option XEntry)) (di : DiagInfo) : DiagInfo :=
  match srcs with
  | [] => di
  | none :: rest => classifyImageSources rest di
  | some img :: rest =>
    let image_text := pyOr img.text (pyOr (img.get "data") (img.get "content"))
    let raw := image_text.getD ""
    let stripped := pyStrip raw
    if truthy image_text && !(stripped == "") then
      if is_base64 stripped then
        { di with has_image := true, image_data := some stripped,
                  image_format := some (detect_image_format img.tag) }
      else if 100 < stripped.length
          && (isSubstr "EMF".data raw.data || isSubstr "WMF".data raw.data) then
        { di with has_image := true, image_data := some stripped,
                  image_format := some "metafile" }
      else if 50 < stripped.length then
        { di with has_image := true, image_data := some stripped,
                  image_format := some "unknown" }
      else classifyImageSources rest di
    else classifyImageSources rest di

/-- The second, unconditional loop over the direct file-reference attributes
(lines 507-520): the first truthy one overwrites `has_image`, `image_data`
and `image_format`, whatever the first loop classified. -/
def applyFileRefs (d : XEntry) (di : DiagInfo) : DiagInfo :=
  let image_refs := [d.get "ImageFile", d.get "imageFile",
                     d.get "ImagePath", d.get "imagePath"]
  match image_refs.find? truthy with
  | some r => { di with has_image := true, image_data := some (r.getD ""),
                        image_format := some "file_reference" }
  | none => di

/-- The `image_sources` list literal (lines 454-473), evaluated left to
right; its fifth entry is `diagram_elem.find('.//xmi:Extension//image')`,
whose path compilation raises. -/
def imageSources (nsmap : List (String × String)) (doc : XDoc) (p : List Nat) :
    Except String (List (Option XEntry)) :=
  let s1 := findDesc doc p "Image"
  let s2 := findDesc doc p "MetaFile"
  let s3 := findDesc doc p "DiagramImage"
  let s4 := findDesc doc p "Metafile"
  match findXmiExtensionImage nsmap doc p with
  | Except.error m => Except.error m
  | Except.ok s5 =>
    Except.ok [s1, s2, s3, s4, s5,
      findDesc doc p "image", findDesc doc p "png", findDesc doc p "jpg",
      findDesc doc p "bmp", findDesc doc p "PDATA1", findDesc doc p "PDATA2",
      findDesc doc p "PDATA3", findDesc doc p "StyleEx"]

/-- `_extract_diagram_image_enhanced`: build `image_sources` (which raises
when the prefix map lacks `xmi`), then run the classification cascade and the
unconditional file-reference pass. -/
def extract_diagram_image_enhanced (nsmap : List (String × String))
    (doc : XDoc) (d : XEntry) (di : DiagInfo) : Except String DiagInfo :=
  match imageSources nsmap doc d.path with
  | Except.error m => Except.error m
  | Except.ok srcs => Except.ok (applyFileRefs d (classifyImageSources srcs di))

/-! ## `_extract_diagrams` (lines 344-422) -/

/-- `diag_info` fields read directly off the diagram node (lines 383-404). -/
def mkDiagInfoBase (doc : XDoc) (e : XEntry) : DiagInfo :=
  { id := pyOrS (pyOr (e.get "Id") (pyOr (e.get "xmi.id")
      (pyOr (e.get "id") (e.get "diagramId")))) (synthId e.path)
    name := pyOrS (pyOr (e.get "Name") (pyOr (e.get "name") (e.get "xmi:name")))
      "Unnamed Diagram"
    type := pyOrS (pyOr (e.get "Type") (pyOr (e.get "type") (e.get "DiagramType")))
      "Unknown"
    package_id := pyOr (e.get "PackageID") (pyOr (e.get "package") (e.get "owner"))
    author := pyOr (e.get "Author") (e.get "author")
    created := pyOr (e.get "Created") (e.get "created")
    modified := pyOr (e.get "Modified") (e.get "modified")
    version := pyOr (e.get "Version") (e.get "version")
    notes := extract_notes doc e
    elements := []
    has_image := false
    image_data := none
    image_format := none
    style_ex := e.get "StyleEx"
    swim_lanes := e.get "SwimLanes"
    scale := e.get "Scale" }

/-- De-duplication of diagram candidates by node identity (lines 371-378). -/
def dedupByPath (l : List XEntry) : List XEntry :=
  l.foldl (fun acc e =>
    if acc.any (fun x => x.path = e.path) then acc else acc ++ [e]) []

/-- The body of the per-diagram loop (lines 382-421): placements, image
payload (which can raise), type counter, author/version tracking, store,
bump `total_diagrams`. -/
def diagStep (nsmap : List (String × String)) (doc : XDoc)
    (st : AnalyzerState) (e : XEntry) : Except String AnalyzerState :=
  let di := mkDiagInfoBase doc e
  let di := { di with elements := extract_diagram_elements doc e }
  match extract_diagram_image_enhanced nsmap doc e di with
  | Except.error m => Except.error m
  | Except.ok di =>
    Except.ok { st with
      diagram_types := counterIncr st.diagram_types di.type
      authors := if truthy di.author then setAdd st.authors (di.author.getD "")
        else st.authors
      versions := if truthy di.version then setAdd st.versions (di.version.getD "")
        else st.versions
      diagrams := dictSet st.diagrams di.id di
      total_diagrams := st.total_diagrams + 1 }

/-- `_extract_diagrams`.  `namespaces = getattr(self, 'namespaces_map', {})`
is always the empty mapping — `namespaces_map` is never assigned anywhere in
the class — so the guarded `.//uml:Diagram` branch is skipped and the
unguarded `root.findall('.//xmi:Extension//diagrams')` (line 365) raises
`SyntaxError` before any candidate is processed or any state is mutated. -/
def extract_diagrams (doc : XDoc) (st : AnalyzerState) :
    Except String AnalyzerState :=
  let namespaces : List (String × String) := []
  let c12 := findallDescPair doc [] "Diagrams" "Diagram"
    ++ findallDesc doc [] "Diagram"
  let cUml :=
    if namespaces.any (fun kv => kv.1 = "uml") then
      match etResolvePfx namespaces "uml" with
      | Except.ok uri => findallDesc doc [] (nsTag uri "Diagram")
      | Except.error _ => []   -- line 360-361: `except: pass`
    else []
  let c4 := findallDescPair doc [] "diagrams" "diagram"
  match findallXmiExtensionDiagrams namespaces doc with
  | Except.error m => Except.error m
  | Except.ok c5 =>
    let c6 := findallDesc doc [] "t_diagram"
    let c7 := findallDescChain3 doc [] "EAP" "diagrams" "diagram"
    let unique := dedupByPath (c12 ++ cUml ++ c4 ++ c5 ++ c6 ++ c7)
    unique.foldlM (diagStep namespaces doc) st

/-! ## `analyze_file` past the parse phase -/

/-- The extraction pipeline of `analyze_file` (lines 66-112) applied to a
parsed tree: each extractor runs inside a `try/except` that demotes an
exception to a printed warning.  Only `_extract_diagrams` can raise in this
embedding, and it raises before mutating any state, so catching it leaves
the state exactly as it was. -/
def analyzeRoot (doc : XDoc) : AnalyzerState :=
  let st := initState
  let st := extract_model_info doc st
  let st := extract_packages doc st
  let st := extract_elements doc st
  let st := match extract_diagrams doc st with
    | Except.ok st2 => st2
    | Except.error _ => st
  let st := extract_connectors doc st
  let st := extract_tagged_values doc st
  calculate_stats st

/-! ## `_clean_xml_content` (lines 114-127) -/

/-- `[a-zA-Z]`. -/
def isAsciiLetterCh (c : Char) : Bool :=
  ('a' ≤ c && c ≤ 'z') || ('A' ≤ c && c ≤ 'Z')

/-- `[a-zA-Z0-9]`. -/
def isAsciiAlnumCh (c : Char) : Bool :=
  isAsciiLetterCh c || ('0' ≤ c && c ≤ '9')

/-- One pass of `re.sub(pfx + '([a-zA-Z][a-zA-Z0-9]*)', group, s)`: scanning
left to right, an occurrence of the prefix immediately followed by an ASCII
identifier is replaced by the identifier alone (the prefix is deleted), and
scanning resumes after the match; elsewhere the scanner advances one
character.  The fuel argument (instantiated with the input length, ample
since every step consumes at least one character) keeps the recursion
structural. -/
def stripPfxAux (pre : List Char) : Nat → List Char → List Char
  | 0, s => s
  | Nat.succ f, s =>
    match s with
    | [] => []
    | c :: rest =>
      if pre.isPrefixOf s then
        match s.drop pre.length with
        | a :: arest =>
          if isAsciiLetterCh a then
            (a :: arest.takeWhile isAsciiAlnumCh)
              ++ stripPfxAux pre f (arest.dropWhile isAsciiAlnumCh)
          else c :: stripPfxAux pre f rest
        | [] => c :: stripPfxAux pre f rest
      else c :: stripPfxAux pre f rest

/-- One full `re.sub` pass for one prefix. -/
def stripPfxAll (pre : String) (s : List Char) : List Char :=
  stripPfxAux pre.data s.length s

/-- `problematic_prefixes` (line 120). -/
def problematicPfxList : List String :=
  ["xml:", "xmlns:", "xsi:", "uml:", "xmi:"]

/-- `_clean_xml_content`: the five substitution passes, applied in order. -/
def clean_xml_content (content : String) : String :=
  String.mk (problematicPfxList.foldl (fun acc p => stripPfxAll p acc) content.data)

/-! ## The parse phase of `analyze_file` (lines 49-64) -/

/-- Outcome of one `xml.etree` parse attempt: a tree, or an
`ET.ParseError` carrying a message. -/
inductive PRes where
  | ok (root : XDoc)
  | perr (msg : String)
deriving Repr, DecidableEq

/-- The three-strategy parse phase of `analyze_file`, instrumented with the
list of strategies actually attempted: (1) `ET.parse(xml_file_path)`;
on `ET.ParseError e`, (2) `ET.fromstring(content)`; on a further
`ET.ParseError`, (3) `ET.fromstring(self._clean_xml_content(content))`; on a
third `ET.ParseError`, `raise ValueError(f"Invalid XML format: {e}")` with
`e` the strategy-1 error. -/
def parseWithRecovery (parseFile : PRes) (fromstring : String → PRes)
    (content : String) : Except String XDoc × List Nat :=
  match parseFile with
  | PRes.ok root => (Except.ok root, [1])
  | PRes.perr e1 =>
    match fromstring content with
    | PRes.ok root => (Except.ok root, [1, 2])
    | PRes.perr _ =>
      match fromstring (clean_xml_content content) with
      | PRes.ok root => (Except.ok root, [1, 2, 3])
      | PRes.perr _ =>
        (Except.error ("Invalid XML format: " ++ e1), [1, 2, 3])

/-! ## The shared `try` block around the two sub-extractions (lines 277-282) -/

/-- What a sub-extraction did by the time it returned or raised: the entries
it had appended to the (mutable) facet list, and the exception message when
it raised. -/
structure SubResult (α : Type) where
  items : List α
  err : Option String
deriving Repr, DecidableEq

/-- Lines 277-282 of `_extract_elements`: ONE `try` block runs attribute
sub-extraction and then operation sub-extraction; an exception anywhere in it
prints one warning naming the owning element and aborts the rest of the
block.  Result: the element's attribute list, its operation list, and the
printed warnings.  An exception in `_extract_attributes` leaves the
already-appended attributes in place and skips `_extract_operations`
entirely; an exception in `_extract_operations` leaves both partial lists. -/
def attrsOpsTryBlock (ar : SubResult AttrInfo) (opr : SubResult OpInfo)
    (elemName : String) : List AttrInfo × List OpInfo × List String :=
  match ar.err with
  | some e =>
    (ar.items, [],
      ["Error extracting attributes/operations for " ++ elemName ++ ": " ++ e])
  | none =>
    match opr.err with
    | some e =>
      (ar.items, opr.items,
        ["Error extracting attributes/operations for " ++ elemName ++ ": " ++ e])
    | none => (ar.items, opr.items, [])

/-! ## `_read_file_with_encoding` (lines 129-143) -/

/-- Parse one UTF-8 scalar from the head of a byte list, RFC 3629 ranges as
enforced by CPython's strict `utf-8` codec. -/
def utf8Step : List Nat → Option (Char × List Nat)
  | [] => none
  | b :: rest =>
    if b ≤ 0x7F then some (Char.ofNat b, rest)
    else if b < 0xC2 then none
    else if b ≤ 0xDF then
      match rest with
      | b1 :: r1 =>
        if 0x80 ≤ b1 && b1 ≤ 0xBF then
          some (Char.ofNat ((b - 0xC0) * 0x40 + (b1 - 0x80)), r1)
        else none
      | [] => none
    else if b ≤ 0xEF then
      match rest with
      | b1 :: b2 :: r2 =>
        let lo1 := if b = 0xE0 then 0xA0 else 0x80
        let hi1 := if b = 0xED then 0x9F else 0xBF
        if lo1 ≤ b1 && b1 ≤ hi1 && 0x80 ≤ b2 && b2 ≤ 0xBF then
          some (Char.ofNat ((b - 0xE0) * 0x1000 + (b1 - 0x80) * 0x40 + (b2 - 0x80)), r2)
        else none
      | _ => none
    else if b ≤ 0xF4 then
      match rest with
      | b1 :: b2 :: b3 :: r3 =>
        let lo1 := if b = 0xF0 then 0x90 else 0x80
        let hi1 := if b = 0xF4 then 0x8F else 0xBF
        if lo1 ≤ b1 && b1 ≤ hi1 && 0x80 ≤ b2 && b2 ≤ 0xBF
            && 0x80 ≤ b3 && b3 ≤ 0xBF then
          some (Char.ofNat ((b - 0xF0) * 0x40000 + (b1 - 0x80) * 0x1000
            + (b2 - 0x80) * 0x40 + (b3 - 0x80)), r3)
        else none
      | _ => none
    else none

/-- Strict decode, `bytes.decode('utf-8')`: any invalid sequence raises
(`UnicodeDecodeError`, here `none`).  Fuel keeps the recursion structural;
each step consumes at least one byte, so the input length is ample. -/
def utf8DecodeStrictAux : Nat → List Nat → Option (List Char)
  | 0, bs => if bs.isEmpty then some [] else none
  | Nat.succ f, bs =>
    match bs with
    | [] => some []
    | _ :: _ =>
      match utf8Step bs with
      | some (c, r) => (utf8DecodeStrictAux f r).map (fun t => c :: t)
      | none => none

/-- `contents.decode('utf-8')` succeeding or raising. -/
def utf8DecodeStrict (bs : List Nat) : Option (List Char) :=
  utf8DecodeStrictAux bs.length bs

/-- `raw_content.decode('utf-8', errors='ignore')` (line 143): undecodable
bytes are dropped and decoding continues. -/
def utf8DecodeIgnoreAux : Nat → List Nat → List Char
  | 0, _ => []
  | Nat.succ f, bs =>
    match bs with
    | [] => []
    | _ :: tl =>
      match utf8Step bs with
      | some (c, r) => c :: utf8DecodeIgnoreAux f r
      | none => utf8DecodeIgnoreAux f tl

/-- The lenient fallback decode actually performed by the source. -/
def utf8DecodeIgnore (bs : List Nat) : List Char :=
  utf8DecodeIgnoreAux bs.length bs

/-- Modelled from the spec (not from the source, which uses
`errors='ignore'`): lenient decoding that substitutes the replacement
character U+FFFD for each undecodable byte sequence rather than dropping it. -/
def specReplacementDecode : List Nat → List Char :=
  fun bs => specReplacementDecodeAux bs.length bs
where
  specReplacementDecodeAux : Nat → List Nat → List Char
    | 0, _ => []
    | Nat.succ f, bs =>
      match bs with
      | [] => []
      | _ :: tl =>
        match utf8Step bs with
        | some (c, r) => c :: specReplacementDecodeAux f r
        | none => Char.ofNat 0xFFFD :: specReplacementDecodeAux f tl

/-- `'latin-1'` decoding: total — every one of the 256 byte values maps to
the code point of the same value, so a full-file latin-1 decode never raises. -/
def latin1Decode (bs : List Nat) : List Char :=
  bs.map (fun b => Char.ofNat (b % 256))

/-- The `for encoding in encodings:` loop: first decoder that does not raise
`UnicodeDecodeError` wins. -/
def firstDecode : List (List Nat → Option (List Char)) → List Nat →
    Option (List Char)
  | [], _ => none
  | d :: ds, c =>
    match d c with
    | some t => some t
    | none => firstDecode ds c

/-- `_read_file_with_encoding` on a readable file's bytes: try
`['utf-8', 'latin-1', 'cp1252', 'iso-8859-1', 'utf-16']` in order, then fall
back to the raw-bytes lenient decode.  The `cp1252`, `iso-8859-1` and
`utf-16` codecs are external to the source and are abstracted as arbitrary
partial decoders; nothing downstream depends on them because `latin-1`
already accepts every byte sequence. -/
def read_file_with_encoding (decCp1252 decIso88591 decUtf16 :
    List Nat → Option (List Char)) (contents : List Nat) : List Char :=
  match firstDecode [utf8DecodeStrict, fun c => some (latin1Decode c),
      decCp1252, decIso88591, decUtf16] contents with
  | some t => t
  | none => utf8DecodeIgnore contents

/-! ## Concrete documents used in the claim analyses -/

/-- Scenario-A document: a root (not itself package- or element-like)
wrapping exactly one package node and one element node, the root's text left
arbitrary. -/
def scenarioADoc (rtext : Option String) : XDoc :=
  [⟨[], "XMI", [], rtext⟩,
   ⟨[0], "Package", [("Id", "P1"), ("Name", "Core")], none⟩,
   ⟨[1], "Element",
     [("Id", "E1"), ("Name", "Order"), ("Type", "Class"), ("PackageID", "P1")],
     none⟩]

/-- A node with a nested `Notes` child that carries text but no child
elements, and no `Documentation` child and no `Notes` attribute. -/
def notesTextOnlyDoc : XDoc :=
  [⟨[], "Element", [], none⟩, ⟨[0], "Notes", [], some "hello"⟩]

/-- The same shape, but the `Notes` child itself has a child element, which
makes it truthy for `xml.etree`. -/
def notesWithChildDoc : XDoc :=
  [⟨[], "Element", [], none⟩, ⟨[0], "Notes", [], some "hello"⟩,
   ⟨[0, 0], "b", [], none⟩]

/-- A document with a single connector node carrying no attribute at all, so
no usable id. -/
def bareConnectorDoc : XDoc :=
  [⟨[], "XMI", [], none⟩, ⟨[0], "Connector", [], none⟩]

/-- A document with two attribute-less connector nodes: both are recognized,
both are keyed under `None`. -/
def twoBareConnectorsDoc : XDoc :=
  [⟨[], "XMI", [], none⟩, ⟨[0], "Connector", [], none⟩,
   ⟨[1], "Connector", [], none⟩]

/-- A diagram node whose placement child sits inside a `DiagramElements`
container, therefore matching both the `.//DiagramElements/DiagramElement`
and the `.//DiagramElement` search patterns. -/
def nestedPlacementDoc : XDoc :=
  [⟨[], "Diagram", [("Id", "D1")], none⟩,
   ⟨[0], "DiagramElements", [], none⟩,
   ⟨[0, 0], "DiagramElement", [("ElementID", "E1")], none⟩]

/-- A diagram node with a base64-payload `Image` child and a direct
`ImageFile` attribute (the scenario of claim C3). -/
def imageAndRefDoc : XDoc :=
  [⟨[], "Diagram", [("Id", "D1"), ("ImageFile", "d1.png")], none⟩,
   ⟨[0], "Image", [], some "iVBORw0KGgo="⟩]


/-! ## Bookkeeping lemmas about dict folds and state threading -/

theorem foldl_preserving {σ α β : Type} (f : σ → α → σ) (g : σ → β)
    (h : ∀ s a, g (f s a) = g s) :
    ∀ (l : List α) (s : σ), g (l.foldl f s) = g s := by
  intro l
  induction l with
  | nil => intro s; rfl
  | cons a t ih => intro s; rw [List.foldl_cons, ih, h]

theorem foldl_counting {σ α : Type} (f : σ → α → σ) (g : σ → Nat)
    (h : ∀ s a, g (f s a) = g s + 1) :
    ∀ (l : List α) (s : σ), g (l.foldl f s) = g s + l.length := by
  intro l
  induction l with
  | nil => intro s; rfl
  | cons a t ih => intro s; rw [List.foldl_cons, ih, h]; simp; omega

theorem foldl_dict_proj {σ α K V : Type} [DecidableEq K] (f : σ → α → σ)
    (g : σ → List (K × V)) (key : α → K) (val : α → V)
    (h : ∀ s a, g (f s a) = dictSet (g s) (key a) (val a)) :
    ∀ (l : List α) (s : σ),
      g (l.foldl f s) = l.foldl (fun acc x => dictSet acc (key x) (val x)) (g s) := by
  intro l
  induction l with
  | nil => intro s; rfl
  | cons a t ih => intro s; rw [List.foldl_cons, ih, h, List.foldl_cons]

theorem dictSet_fst {K V : Type} [DecidableEq K] (d : List (K × V)) (k : K) (v : V) :
    (dictSet d k v).map Prod.fst =
      if d.any (fun kv => kv.1 = k) then d.map Prod.fst else d.map Prod.fst ++ [k] := by
  unfold dictSet
  split
  · simp only [List.map_map, if_true]
    refine List.map_congr_left ?_
    intro kv _
    by_cases hk : kv.1 = k
    · simp [hk]
    · simp [hk]
  · simp

theorem dictSet_keys_toFinset {K V : Type} [DecidableEq K] (d : List (K × V))
    (k : K) (v : V) :
    ((dictSet d k v).map Prod.fst).toFinset = insert k (d.map Prod.fst).toFinset := by
  rw [dictSet_fst]
  split
  · next h =>
    have hk : k ∈ (d.map Prod.fst).toFinset := by
      have h2 : ∃ kv ∈ d, kv.1 = k := by
        have := List.any_eq_true.mp h
        simpa using this
      rcases h2 with ⟨kv, hmem, hkv⟩
      exact List.mem_toFinset.mpr (hkv ▸ List.mem_map_of_mem Prod.fst hmem)
    exact (Finset.insert_eq_self.mpr hk).symm
  · simp [List.toFinset_append]
    rw [Finset.union_comm]
    simp [Finset.insert_eq]

theorem dictSet_nodup_keys {K V : Type} [DecidableEq K] (d : List (K × V))
    (k : K) (v : V) (h : (d.map Prod.fst).Nodup) :
    ((dictSet d k v).map Prod.fst).Nodup := by
  rw [dictSet_fst]
  split
  · exact h
  · next hany =>
    have hk : k ∉ d.map Prod.fst := by
      intro hmem
      rcases List.mem_map.mp hmem with ⟨kv, hkv, hfst⟩
      have : d.any (fun kv => kv.1 = k) = true :=
        List.any_eq_true.mpr ⟨kv, hkv, by simp [hfst]⟩
      simp [this] at hany
    simp [List.nodup_append, h, hk]

theorem foldl_dictSet_keys_toFinset {K V α : Type} [DecidableEq K]
    (key : α → K) (val : α → V) :
    ∀ (l : List α) (d : List (K × V)),
      ((l.foldl (fun acc x => dictSet acc (key x) (val x)) d).map Prod.fst).toFinset
        = (d.map Prod.fst).toFinset ∪ (l.map key).toFinset := by
  intro l
  induction l with
  | nil => intro d; simp
  | cons a t ih =>
    intro d
    rw [List.foldl_cons, ih, dictSet_keys_toFinset]
    simp [Finset.insert_union, Finset.union_insert]

theorem foldl_dictSet_nodup_keys {K V α : Type} [DecidableEq K]
    (key : α → K) (val : α → V) :
    ∀ (l : List α) (d : List (K × V)), (d.map Prod.fst).Nodup →
      ((l.foldl (fun acc x => dictSet acc (key x) (val x)) d).map Prod.fst).Nodup := by
  intro l
  induction l with
  | nil => intro d h; exact h
  | cons a t ih =>
    intro d h
    rw [List.foldl_cons]
    exact ih _ (dictSet_nodup_keys d (key a) (val a) h)

theorem foldl_dictSet_length {K V α : Type} [DecidableEq K]
    (key : α → K) (val : α → V) (l : List α) :
    (l.foldl (fun acc x => dictSet acc (key x) (val x)) ([] : List (K × V))).length
      = (l.map key).toFinset.card := by
  have hnd := foldl_dictSet_nodup_keys key val l [] List.nodup_nil
  have hlen : (l.foldl (fun acc x => dictSet acc (key x) (val x)) ([] : List (K × V))).length
      = ((l.foldl (fun acc x => dictSet acc (key x) (val x)) ([] : List (K × V))).map Prod.fst).length := by
    simp
  rw [hlen, ← List.toFinset_card_of_nodup hnd, foldl_dictSet_keys_toFinset]
  simp

theorem toFinset_card_lt_of_not_nodup {α : Type} [DecidableEq α] (l : List α)
    (h : ¬ l.Nodup) : l.toFinset.card < l.length := by
  rcases Nat.lt_or_ge l.toFinset.card l.length with hlt | hge
  · exact hlt
  · exfalso
    have hle : l.toFinset.card ≤ l.length := List.toFinset_card_le l
    have heq : l.toFinset.card = l.length := Nat.le_antisymm hle hge
    rw [List.card_toFinset] at heq
    have hsub : l.dedup.Sublist l := List.dedup_sublist l
    have : l.dedup = l := hsub.eq_of_length heq
    exact h (this ▸ List.nodup_dedup l)

/-! ## Threading the pipeline: which extractor touches which field -/

theorem extract_diagrams_raises (doc : XDoc) (st : AnalyzerState) :
    extract_diagrams doc st
      = Except.error "SyntaxError: prefix xmi not found in prefix map" := rfl

theorem analyzeRoot_peel (doc : XDoc) :
    analyzeRoot doc = calculate_stats (extract_tagged_values doc
      (extract_connectors doc (extract_elements doc
        (extract_packages doc (extract_model_info doc initState))))) := by
  rfl

theorem calculate_stats_proj (st : AnalyzerState) :
    (calculate_stats st).packages.length = st.packages.length
    ∧ (calculate_stats st).elements.length = st.elements.length
    ∧ (calculate_stats st).diagrams = st.diagrams
    ∧ (calculate_stats st).connectors = st.connectors
    ∧ (calculate_stats st).total_packages = st.total_packages
    ∧ (calculate_stats st).total_elements = st.total_elements
    ∧ (calculate_stats st).total_diagrams = st.total_diagrams
    ∧ (calculate_stats st).total_connectors = st.total_connectors := by
  unfold calculate_stats
  refine ⟨?_, by simp, rfl, rfl, rfl, rfl, rfl, rfl⟩
  have hstep : ∀ (acc : List (String × PkgInfo)) (kv : String × ElemInfo),
      (match kv.2.package_id with
        | some pid =>
          if pid ≠ "" ∧ dictHas acc pid then
            dictUpdate acc pid (fun p => { p with elements := p.elements ++ [kv.1] })
          else acc
        | none => acc).length = acc.length := by
    intro acc kv
    rcases kv.2.package_id with _ | pid
    · rfl
    · dsimp only
      split
      · simp [dictUpdate]
      · rfl
  have hstep2 : ∀ (acc : List (String × PkgInfo)) (kv : String × PkgInfo),
      (match kv.2.parent_id with
        | some pid =>
          if pid ≠ "" ∧ dictHas acc pid then
            dictUpdate acc pid (fun p => { p with sub_packages := p.sub_packages ++ [kv.1] })
          else acc
        | none => acc).length = acc.length := by
    intro acc kv
    rcases kv.2.parent_id with _ | pid
    · rfl
    · dsimp only
      split
      · simp [dictUpdate]
      · rfl
  rw [foldl_preserving _ List.length hstep, foldl_preserving _ List.length hstep2]

theorem extract_model_info_proj (doc : XDoc) (st : AnalyzerState) :
    (extract_model_info doc st).packages = st.packages
    ∧ (extract_model_info doc st).elements = st.elements
    ∧ (extract_model_info doc st).diagrams = st.diagrams
    ∧ (extract_model_info doc st).connectors = st.connectors
    ∧ (extract_model_info doc st).tagged_values = st.tagged_values
    ∧ (extract_model_info doc st).total_packages = st.total_packages
    ∧ (extract_model_info doc st).total_elements = st.total_elements
    ∧ (extract_model_info doc st).total_diagrams = st.total_diagrams
    ∧ (extract_model_info doc st).total_connectors = st.total_connectors := by
  unfold extract_model_info
  exact ⟨rfl, rfl, rfl, rfl, rfl, rfl, rfl, rfl, rfl⟩

theorem extract_packages_proj (doc : XDoc) (st : AnalyzerState) :
    (extract_packages doc st).packages
      = (packageCandidates doc).foldl
          (fun acc e => dictSet acc (mkPkgInfo doc e).id (mkPkgInfo doc e)) st.packages
    ∧ (extract_packages doc st).total_packages
      = st.total_packages + (packageCandidates doc).length
    ∧ (extract_packages doc st).elements = st.elements
    ∧ (extract_packages doc st).diagrams = st.diagrams
    ∧ (extract_packages doc st).connectors = st.connectors
    ∧ (extract_packages doc st).tagged_values = st.tagged_values
    ∧ (extract_packages doc st).total_elements = st.total_elements
    ∧ (extract_packages doc st).total_diagrams = st.total_diagrams
    ∧ (extract_packages doc st).total_connectors = st.total_connectors := by
  refine ⟨foldl_dict_proj (pkgStep doc) (fun s => s.packages) _ _ (fun s a => rfl) _ st,
    foldl_counting (pkgStep doc) (fun s => s.total_packages) (fun s a => rfl) _ st,
    foldl_preserving (pkgStep doc) (fun s => s.elements) (fun s a => rfl) _ st,
    foldl_preserving (pkgStep doc) (fun s => s.diagrams) (fun s a => rfl) _ st,
    foldl_preserving (pkgStep doc) (fun s => s.connectors) (fun s a => rfl) _ st,
    foldl_preserving (pkgStep doc) (fun s => s.tagged_values) (fun s a => rfl) _ st,
    foldl_preserving (pkgStep doc) (fun s => s.total_elements) (fun s a => rfl) _ st,
    foldl_preserving (pkgStep doc) (fun s => s.total_diagrams) (fun s a => rfl) _ st,
    foldl_preserving (pkgStep doc) (fun s => s.total_connectors) (fun s a => rfl) _ st⟩

theorem extract_elements_proj (doc : XDoc) (st : AnalyzerState) :
    (extract_elements doc st).elements
      = (elementCandidates doc).foldl
          (fun acc e => dictSet acc (mkElemInfo doc e).id (mkElemInfo doc e)) st.elements
    ∧ (extract_elements doc st).total_elements
      = st.total_elements + (elementCandidates doc).length
    ∧ (extract_elements doc st).packages = st.packages
    ∧ (extract_elements doc st).diagrams = st.diagrams
    ∧ (extract_elements doc st).connectors = st.connectors
    ∧ (extract_elements doc st).tagged_values = st.tagged_values
    ∧ (extract_elements doc st).total_packages = st.total_packages
    ∧ (extract_elements doc st).total_diagrams = st.total_diagrams
    ∧ (extract_elements doc st).total_connectors = st.total_connectors := by
  refine ⟨foldl_dict_proj (elemStep doc) (fun s => s.elements) _ _ (fun s a => rfl) _ st,
    foldl_counting (elemStep doc) (fun s => s.total_elements) (fun s a => rfl) _ st,
    foldl_preserving (elemStep doc) (fun s => s.packages) (fun s a => rfl) _ st,
    foldl_preserving (elemStep doc) (fun s => s.diagrams) (fun s a => rfl) _ st,
    foldl_preserving (elemStep doc) (fun s => s.connectors) (fun s a => rfl) _ st,
    foldl_preserving (elemStep doc) (fun s => s.tagged_values) (fun s a => rfl) _ st,
    foldl_preserving (elemStep doc) (fun s => s.total_packages) (fun s a => rfl) _ st,
    foldl_preserving (elemStep doc) (fun s => s.total_diagrams) (fun s a => rfl) _ st,
    foldl_preserving (elemStep doc) (fun s => s.total_connectors) (fun s a => rfl) _ st⟩

theorem extract_connectors_proj (doc : XDoc) (st : AnalyzerState) :
    (extract_connectors doc st).connectors
      = (connectorCandidates doc).foldl
          (fun acc e => dictSet acc (mkConnInfo doc e).id (mkConnInfo doc e)) st.connectors
    ∧ (extract_connectors doc st).total_connectors
      = st.total_connectors + (connectorCandidates doc).length
    ∧ (extract_connectors doc st).packages = st.packages
    ∧ (extract_connectors doc st).elements = st.elements
    ∧ (extract_connectors doc st).diagrams = st.diagrams
    ∧ (extract_connectors doc st).tagged_values = st.tagged_values
    ∧ (extract_connectors doc st).total_packages = st.total_packages
    ∧ (extract_connectors doc st).total_elements = st.total_elements
    ∧ (extract_connectors doc st).total_diagrams = st.total_diagrams := by
  refine ⟨foldl_dict_proj (connStep doc) (fun s => s.connectors) _ _ (fun s a => rfl) _ st,
    foldl_counting (connStep doc) (fun s => s.total_connectors) (fun s a => rfl) _ st,
    foldl_preserving (connStep doc) (fun s => s.packages) (fun s a => rfl) _ st,
    foldl_preserving (connStep doc) (fun s => s.elements) (fun s a => rfl) _ st,
    foldl_preserving (connStep doc) (fun s => s.diagrams) (fun s a => rfl) _ st,
    foldl_preserving (connStep doc) (fun s => s.tagged_values) (fun s a => rfl) _ st,
    foldl_preserving (connStep doc) (fun s => s.total_packages) (fun s a => rfl) _ st,
    foldl_preserving (connStep doc) (fun s => s.total_elements) (fun s a => rfl) _ st,
    foldl_preserving (connStep doc) (fun s => s.total_diagrams) (fun s a => rfl) _ st⟩

theorem extract_tagged_values_proj (doc : XDoc) (st : AnalyzerState) :
    (extract_tagged_values doc st).packages = st.packages
    ∧ (extract_tagged_values doc st).elements = st.elements
    ∧ (extract_tagged_values doc st).diagrams = st.diagrams
    ∧ (extract_tagged_values doc st).connectors = st.connectors
    ∧ (extract_tagged_values doc st).total_packages = st.total_packages
    ∧ (extract_tagged_values doc st).total_elements = st.total_elements
    ∧ (extract_tagged_values doc st).total_diagrams = st.total_diagrams
    ∧ (extract_tagged_values doc st).total_connectors = st.total_connectors := by
  exact ⟨foldl_preserving (tagStep doc) (fun s => s.packages) (fun s a => rfl) _ st,
    foldl_preserving (tagStep doc) (fun s => s.elements) (fun s a => rfl) _ st,
    foldl_preserving (tagStep doc) (fun s => s.diagrams) (fun s a => rfl) _ st,
    foldl_preserving (tagStep doc) (fun s => s.connectors) (fun s a => rfl) _ st,
    foldl_preserving (tagStep doc) (fun s => s.total_packages) (fun s a => rfl) _ st,
    foldl_preserving (tagStep doc) (fun s => s.total_elements) (fun s a => rfl) _ st,
    foldl_preserving (tagStep doc) (fun s => s.total_diagrams) (fun s a => rfl) _ st,
    foldl_preserving (tagStep doc) (fun s => s.total_connectors) (fun s a => rfl) _ st⟩

theorem analyzeRoot_counts (doc : XDoc) :
    (analyzeRoot doc).total_packages = (packageCandidates doc).length
    ∧ (analyzeRoot doc).packages.length
        = ((packageCandidates doc).map (fun e => (mkPkgInfo doc e).id)).toFinset.card
    ∧ (analyzeRoot doc).total_elements = (elementCandidates doc).length
    ∧ (analyzeRoot doc).elements.length
        = ((elementCandidates doc).map (fun e => (mkElemInfo doc e).id)).toFinset.card
    ∧ (analyzeRoot doc).total_connectors = (connectorCandidates doc).length
    ∧ (analyzeRoot doc).connectors.length
        = ((connectorCandidates doc).map (fun e => (mkConnInfo doc e).id)).toFinset.card
    ∧ (analyzeRoot doc).total_diagrams = 0
    ∧ (analyzeRoot doc).diagrams = [] := by
  obtain ⟨mi_pk, mi_el, mi_dg, mi_cn, mi_tv, mi_tp, mi_te, mi_td, mi_tc⟩ :=
    extract_model_info_proj doc initState
  obtain ⟨pk_pk, pk_tp, pk_el, pk_dg, pk_cn, pk_tv, pk_te, pk_td, pk_tc⟩ :=
    extract_packages_proj doc (extract_model_info doc initState)
  obtain ⟨el_el, el_te, el_pk, el_dg, el_cn, el_tv, el_tp, el_td, el_tc⟩ :=
    extract_elements_proj doc
      (extract_packages doc (extract_model_info doc initState))
  obtain ⟨cn_cn, cn_tc, cn_pk, cn_el, cn_dg, cn_tv, cn_tp, cn_te, cn_td⟩ :=
    extract_connectors_proj doc
      (extract_elements doc (extract_packages doc (extract_model_info doc initState)))
  obtain ⟨tv_pk, tv_el, tv_dg, tv_cn, tv_tp, tv_te, tv_td, tv_tc⟩ :=
    extract_tagged_values_proj doc
      (extract_connectors doc (extract_elements doc
        (extract_packages doc (extract_model_info doc initState))))
  obtain ⟨cs_pk, cs_el, cs_dg, cs_cn, cs_tp, cs_te, cs_td, cs_tc⟩ :=
    calculate_stats_proj (extract_tagged_values doc
      (extract_connectors doc (extract_elements doc
        (extract_packages doc (extract_model_info doc initState)))))
  rw [analyzeRoot_peel]
  refine ⟨?_, ?_, ?_, ?_, ?_, ?_, ?_, ?_⟩
  · rw [cs_tp, tv_tp, cn_tp, el_tp, pk_tp, mi_tp]; exact Nat.zero_add _
  · rw [cs_pk, tv_pk, cn_pk, el_pk, pk_pk, mi_pk]
    exact foldl_dictSet_length _ _ _
  · rw [cs_te, tv_te, cn_te, el_te, pk_te, mi_te]; exact Nat.zero_add _
  · rw [cs_el, tv_el, cn_el, el_el, pk_el, mi_el]
    exact foldl_dictSet_length _ _ _
  · rw [cs_tc, tv_tc, cn_tc, el_tc, pk_tc, mi_tc]; exact Nat.zero_add _
  · rw [cs_cn, tv_cn, cn_cn, el_cn, pk_cn, mi_cn]
    exact foldl_dictSet_length _ _ _
  · rw [cs_td, tv_td, cn_td, el_td, pk_td, mi_td]; rfl
  · rw [cs_dg, tv_dg, cn_dg, el_dg, pk_dg, mi_dg]; rfl

theorem pyOr_falsy (a b : Option String) (h : truthy a = false) : pyOr a b = b := by
  unfold pyOr
  rw [h]
  rfl

theorem pyOrS_falsy (a : Option String) (d : String) (h : truthy a = false) :
    pyOrS a d = d := by
  unfold pyOrS
  cases a with
  | none => rfl
  | some s =>
    have hs : s = "" := by
      by_contra hne
      simp [truthy, hne] at h
    rw [hs]
    rfl

theorem isSubstr_append_mid (x a b : List Char) :
    isSubstr x (a ++ (x ++ b)) = true := by
  unfold isSubstr
  refine List.any_eq_true.mpr ⟨x ++ b, (List.mem_tails (x ++ b) (a ++ (x ++ b))).mpr ⟨a, rfl⟩, ?_⟩
  simp [List.isPrefixOf_iff_prefix]

theorem analyzeRoot_connectors (doc : XDoc) :
    (analyzeRoot doc).connectors
      = (connectorCandidates doc).foldl
          (fun acc e => dictSet acc (mkConnInfo doc e).id (mkConnInfo doc e)) [] := by
  obtain ⟨-, -, -, mi_cn, -, -, -, -, -⟩ := extract_model_info_proj doc initState
  obtain ⟨-, -, -, -, pk_cn, -, -, -, -⟩ :=
    extract_packages_proj doc (extract_model_info doc initState)
  obtain ⟨-, -, -, -, el_cn, -, -, -, -⟩ :=
    extract_elements_proj doc
      (extract_packages doc (extract_model_info doc initState))
  obtain ⟨cn_cn, -, -, -, -, -, -, -, -⟩ :=
    extract_connectors_proj doc
      (extract_elements doc (extract_packages doc (extract_model_info doc initState)))
  obtain ⟨-, -, -, tv_cn, -, -, -, -⟩ :=
    extract_tagged_values_proj doc
      (extract_connectors doc (extract_elements doc
        (extract_packages doc (extract_model_info doc initState))))
  obtain ⟨-, -, -, cs_cn, -, -, -, -⟩ :=
    calculate_stats_proj (extract_tagged_values doc
      (extract_connectors doc (extract_elements doc
        (extract_packages doc (extract_model_info doc initState)))))
  rw [analyzeRoot_peel, cs_cn, tv_cn, cn_cn, el_cn, pk_cn, mi_cn]
  rfl

theorem foldl_dictSet_key_mem {K V α : Type} [DecidableEq K] (key : α → K)
    (val : α → V) (l : List α) (k : K)
    (h : k ∈ (l.foldl (fun acc x => dictSet acc (key x) (val x))
      ([] : List (K × V))).map Prod.fst) :
    k ∈ l.map key := by
  have h3 := List.mem_toFinset.mpr h
  rw [foldl_dictSet_keys_toFinset key val l []] at h3
  simp only [List.map_nil, List.toFinset_nil, Finset.empty_union,
    List.mem_toFinset] at h3
  exact h3

/-! ## The claims -/

/-- C1 counterexample: in the scenario-A document the element node
`<Element Id="E1" Name="Order" Type="Class" PackageID="P1">` carries both a
`Name` and a `PackageID` attribute, so `_extract_packages` recognizes it as a
package too (lines 201-202), and `stats.total_packages` comes out 2, not 1 as
the claim states. -/
theorem c1_counterexample :
    (analyzeRoot (scenarioADoc none)).total_packages = 2
    ∧ ¬ (analyzeRoot (scenarioADoc none)).total_packages = 1 := by decide

/-- C1 (amended): for the scenario-A document (any root text),
`Analyze` yields `total_packages = 2` — the packages map holds `P1` and also
`E1`, the element node being package-like under the `Name`+`PackageID`
heuristic — while `total_elements = 1`, package `P1` owns member list
`["E1"]`, and `element_types` maps `Class` to 1, as the claim states. -/
theorem c1_amended (rtext : Option String) :
    (analyzeRoot (scenarioADoc rtext)).total_packages = 2
    ∧ (analyzeRoot (scenarioADoc rtext)).packages.map Prod.fst = ["P1", "E1"]
    ∧ (analyzeRoot (scenarioADoc rtext)).total_elements = 1
    ∧ (dictGet (analyzeRoot (scenarioADoc rtext)).packages "P1").map PkgInfo.elements
        = some ["E1"]
    ∧ dictGet (analyzeRoot (scenarioADoc rtext)).element_types "Class" = some 1 :=
  ⟨rfl, rfl, rfl, rfl, rfl⟩

/-- C2 counterexample: a nested `Notes` child that carries text but no child
elements is falsy for `xml.etree`, so `find('.//Notes') or
find('.//Documentation')` discards it (line 619) and `_extract_notes`
returns `''` instead of the child's text `"hello"`. -/
theorem c2_counterexample :
    (findDesc notesTextOnlyDoc [] "Notes").map XEntry.text = some (some "hello")
    ∧ findDesc notesTextOnlyDoc [] "Documentation" = none
    ∧ extract_notes notesTextOnlyDoc (rootEntry notesTextOnlyDoc) = ""
    ∧ ¬ extract_notes notesTextOnlyDoc (rootEntry notesTextOnlyDoc) = "hello" := by
  decide

/-- C2 (amended): the helper returns the text of the first nested `Notes`
child only when that child itself has at least one child element; otherwise
it returns the text of the first nested `Documentation` child when one
exists; otherwise the node's own `Notes` attribute; otherwise the empty
string. -/
theorem c2_amended (doc : XDoc) (e : XEntry) :
    (∀ ne, findDesc doc e.path "Notes" = some ne → hasChildElem doc ne.path = true →
      extract_notes doc e = pyOrS ne.text "")
    ∧ (∀ ne de, findDesc doc e.path "Notes" = some ne →
        hasChildElem doc ne.path = false →
        findDesc doc e.path "Documentation" = some de →
        extract_notes doc e = pyOrS de.text "")
    ∧ (∀ de, findDesc doc e.path "Notes" = none →
        findDesc doc e.path "Documentation" = some de →
        extract_notes doc e = pyOrS de.text "")
    ∧ (∀ ne, findDesc doc e.path "Notes" = some ne →
        hasChildElem doc ne.path = false →
        findDesc doc e.path "Documentation" = none →
        extract_notes doc e = e.getD "Notes" "")
    ∧ (findDesc doc e.path "Notes" = none →
        findDesc doc e.path "Documentation" = none →
        extract_notes doc e = e.getD "Notes" "") := by
  refine ⟨?_, ?_, ?_, ?_, ?_⟩
  · intro ne h1 h2
    simp [extract_notes, pyOrNode, h1, h2]
  · intro ne de h1 h2 h3
    simp [extract_notes, pyOrNode, h1, h2, h3]
  · intro de h1 h2
    simp [extract_notes, pyOrNode, h1, h2]
  · intro ne h1 h2 h3
    simp [extract_notes, pyOrNode, h1, h2, h3]
  · intro h1 h2
    simp [extract_notes, pyOrNode, h1, h2]

/-- C2 witness: the amended cases at concrete inputs — a `Notes` child with a
child element is used (text `"hello"`), a text-only `Notes` child is not
(result falls back to the absent attribute, i.e. `''`). -/
theorem c2_witness :
    extract_notes notesWithChildDoc (rootEntry notesWithChildDoc)
      = pyOrS (some "hello") ""
    ∧ extract_notes notesTextOnlyDoc (rootEntry notesTextOnlyDoc)
      = (rootEntry notesTextOnlyDoc).getD "Notes" "" := by
  constructor
  · exact (c2_amended notesWithChildDoc (rootEntry notesWithChildDoc)).1
      ⟨[0], "Notes", [], some "hello"⟩ (by decide) (by decide)
  · exact (c2_amended notesTextOnlyDoc (rootEntry notesTextOnlyDoc)).2.2.2.1
      ⟨[0], "Notes", [], some "hello"⟩ (by decide) (by decide) (by decide)

/-- C3 (code bug): `_extract_diagram_image_enhanced` builds its candidate
list with `diagram_elem.find('.//xmi:Extension//image')` and no namespace
map, which raises `SyntaxError` for every diagram node before any payload is
examined — and `_extract_diagrams` itself raises the same way at
`root.findall('.//xmi:Extension//diagrams')` (line 365) before processing any
candidate.  So for the claim's scenario (a diagram with a classified base64
`Image` child and an `ImageFile` attribute) no classification is ever made,
retained or overwritten, and the diagram never reaches the model at all; the
payload is a perfectly valid base64 string. -/
theorem c3_image_extraction_always_raises (doc : XDoc) (d : XEntry) (di : DiagInfo) :
    extract_diagram_image_enhanced [] doc d di
      = Except.error "SyntaxError: prefix xmi not found in prefix map"
    ∧ extract_diagrams doc initState
      = Except.error "SyntaxError: prefix xmi not found in prefix map"
    ∧ is_base64 "iVBORw0KGgo=" = true
    ∧ (analyzeRoot imageAndRefDoc).diagrams = []
    ∧ (analyzeRoot imageAndRefDoc).total_diagrams = 0 :=
  ⟨rfl, rfl, by decide, by decide, by decide⟩

/-- C4: the three parse strategies run in order, each only after the previous
raised a parse error; a successful strict parse means strategies 2 and 3 are
never invoked; and when all three fail the operation fails with
`Invalid XML format: ...` carrying the first parser's message. -/
theorem c4_parse_strategy_order (pf : PRes) (fs : String → PRes) (content : String) :
    (∀ root, pf = PRes.ok root →
      parseWithRecovery pf fs content = (Except.ok root, [1]))
    ∧ ((parseWithRecovery pf fs content).2 = [1]
        ∨ (parseWithRecovery pf fs content).2 = [1, 2]
        ∨ (parseWithRecovery pf fs content).2 = [1, 2, 3])
    ∧ (2 ∈ (parseWithRecovery pf fs content).2 ↔ ∃ m, pf = PRes.perr m)
    ∧ (3 ∈ (parseWithRecovery pf fs content).2 ↔
        (∃ m, pf = PRes.perr m) ∧ ∃ m2, fs content = PRes.perr m2)
    ∧ (∀ m1 m2 m3, pf = PRes.perr m1 → fs content = PRes.perr m2 →
        fs (clean_xml_content content) = PRes.perr m3 →
        (parseWithRecovery pf fs content).1
          = Except.error ("Invalid XML format: " ++ m1)) := by
  cases pf with
  | ok root => simp [parseWithRecovery]
  | perr m1 =>
    cases hfs : fs content with
    | ok r2 => simp [parseWithRecovery, hfs]
    | perr m2 =>
      cases hfc : fs (clean_xml_content content) with
      | ok r3 => simp [parseWithRecovery, hfs, hfc]
      | perr m3 => simp [parseWithRecovery, hfs, hfc]

/-- C4 witness: the all-fail case surfaces the first parser's message, and a
successful strict parse stops at strategy 1. -/
theorem c4_witness :
    (parseWithRecovery (PRes.perr "bad") (fun _ => PRes.perr "worse") "x").1
      = Except.error ("Invalid XML format: " ++ "bad")
    ∧ parseWithRecovery (PRes.ok []) (fun _ => PRes.perr "w") "x"
      = (Except.ok [], [1]) :=
  ⟨(c4_parse_strategy_order (PRes.perr "bad") (fun _ => PRes.perr "worse") "x").2.2.2.2
      "bad" "worse" "worse" rfl rfl rfl,
   (c4_parse_strategy_order (PRes.ok []) (fun _ => PRes.perr "w") "x").1 [] rfl⟩

/-- C5 counterexample: with an attribute sub-extraction that raises after
appending one attribute, while operation sub-extraction would have produced
one operation, the shared `try` block (lines 277-282) leaves the operations
list empty (the operation sub-extraction never ran) and the attributes list
non-empty (the failed facet is not an empty list), refuting both the
independence and the empty-facet parts of the claim. -/
theorem c5_counterexample :
    (attrsOpsTryBlock
        ⟨[⟨none, "a", none, none, false, none, "", none⟩], some "boom"⟩
        ⟨[⟨none, "op", none, none, false, false, "", none, []⟩], none⟩
        "Order").2.1 = []
    ∧ ¬ (attrsOpsTryBlock
        ⟨[⟨none, "a", none, none, false, none, "", none⟩], some "boom"⟩
        ⟨[⟨none, "op", none, none, false, false, "", none, []⟩], none⟩
        "Order").2.1 = [⟨none, "op", none, none, false, false, "", none, []⟩]
    ∧ ¬ (attrsOpsTryBlock
        ⟨[⟨none, "a", none, none, false, none, "", none⟩], some "boom"⟩
        ⟨[⟨none, "op", none, none, false, false, "", none, []⟩], none⟩
        "Order").1 = [] := by decide

/-- C5 (amended): the two sub-extractions share one fault-isolation block: a
failure during attribute sub-extraction keeps the attributes appended so far,
skips operation sub-extraction entirely (operations stay `[]`), and logs one
warning that names the owning element; a failure during operation
sub-extraction keeps both partial lists and logs the same warning; with no
failure both results are kept and nothing is logged. -/
theorem c5_amended (ar : SubResult AttrInfo) (opr : SubResult OpInfo) (nm : String) :
    (∀ m, ar.err = some m →
      attrsOpsTryBlock ar opr nm = (ar.items, [],
        ["Error extracting attributes/operations for " ++ nm ++ ": " ++ m]))
    ∧ (∀ m, ar.err = none → opr.err = some m →
      attrsOpsTryBlock ar opr nm = (ar.items, opr.items,
        ["Error extracting attributes/operations for " ++ nm ++ ": " ++ m]))
    ∧ (ar.err = none → opr.err = none →
      attrsOpsTryBlock ar opr nm = (ar.items, opr.items, []))
    ∧ (∀ m, ar.err = some m → ∀ w ∈ (attrsOpsTryBlock ar opr nm).2.2,
        isSubstr nm.data w.data = true) := by
  refine ⟨?_, ?_, ?_, ?_⟩
  · intro m h
    simp [attrsOpsTryBlock, h]
  · intro m h1 h2
    simp [attrsOpsTryBlock, h1, h2]
  · intro h1 h2
    simp [attrsOpsTryBlock, h1, h2]
  · intro m h w hw
    have hw2 : w = "Error extracting attributes/operations for " ++ nm ++ ": " ++ m := by
      simpa [attrsOpsTryBlock, h] using hw
    subst hw2
    have hdata : ("Error extracting attributes/operations for " ++ nm ++ ": " ++ m).data
        = "Error extracting attributes/operations for ".data
          ++ (nm.data ++ (": " ++ m).data) := by
      simp [String.data_append]
    rw [hdata]
    have h2 := isSubstr_append_mid nm.data
      "Error extracting attributes/operations for ".data (": " ++ m).data
    simpa using h2

/-- C5 witness: a failing attribute sub-extraction at a concrete input — the
operations facet is skipped and the warning mentions the element name. -/
theorem c5_witness :
    attrsOpsTryBlock (⟨[], some "boom"⟩ : SubResult AttrInfo)
        (⟨[⟨none, "op", none, none, false, false, "", none, []⟩], none⟩ : SubResult OpInfo)
        "Order"
      = ([], [], ["Error extracting attributes/operations for " ++ "Order" ++ ": " ++ "boom"])
    ∧ isSubstr "Order".data
        ("Error extracting attributes/operations for Order: boom").data = true := by
  constructor
  · exact (c5_amended ⟨[], some "boom"⟩
      ⟨[⟨none, "op", none, none, false, false, "", none, []⟩], none⟩ "Order").1 "boom" rfl
  · exact (c5_amended ⟨[], some "boom"⟩
      ⟨[⟨none, "op", none, none, false, false, "", none, []⟩], none⟩ "Order").2.2.2
      "boom" rfl _ (by decide)

/-- C6 counterexample: a connector node with no attributes has no usable id,
`_extract_connectors` synthesizes nothing (line 564 has no `str(id(...))`
fallback), and the connector is stored in the id-keyed collection under
`None`. -/
theorem c6_counterexample :
    (analyzeRoot bareConnectorDoc).connectors.map Prod.fst = [none]
    ∧ (analyzeRoot bareConnectorDoc).total_connectors = 1 := by decide

/-- C6 (amended): package and element nodes lacking every usable id
attribute do get an identifier synthesized from the node's transient
identity, and their collections are keyed by plain strings; connector
extraction has no such fallback — a connector without `Id`/`id` gets id
`None`, and every key of the connectors collection is the (possibly `None`)
id of some recognized connector candidate. -/
theorem c6_amended (doc : XDoc) :
    (∀ e ∈ packageCandidates doc,
      truthy (e.get "Id") = false → truthy (e.get "id") = false →
      truthy (e.get "xmi.id") = false → (mkPkgInfo doc e).id = synthId e.path)
    ∧ (∀ e ∈ elementCandidates doc,
      truthy (e.get "Id") = false → truthy (e.get "id") = false →
      truthy (e.get "xmi.id") = false → (mkElemInfo doc e).id = synthId e.path)
    ∧ (∀ e ∈ connectorCandidates doc,
      truthy (e.get "Id") = false → e.get "id" = none →
      (mkConnInfo doc e).id = none)
    ∧ (∀ k ∈ (analyzeRoot doc).connectors.map Prod.fst,
      ∃ e ∈ connectorCandidates doc, k = (mkConnInfo doc e).id) := by
  refine ⟨?_, ?_, ?_, ?_⟩
  · intro e _ h1 h2 h3
    show pyOrS (pyOr (e.get "Id") (pyOr (e.get "id") (e.get "xmi.id"))) (synthId e.path)
      = synthId e.path
    rw [pyOr_falsy _ _ h1, pyOr_falsy _ _ h2, pyOrS_falsy _ _ h3]
  · intro e _ h1 h2 h3
    show pyOrS (pyOr (e.get "Id") (pyOr (e.get "id") (e.get "xmi.id"))) (synthId e.path)
      = synthId e.path
    rw [pyOr_falsy _ _ h1, pyOr_falsy _ _ h2, pyOrS_falsy _ _ h3]
  · intro e _ h1 h2
    show pyOr (e.get "Id") (e.get "id") = none
    rw [pyOr_falsy _ _ h1, h2]
  · intro k hk
    rw [analyzeRoot_connectors doc] at hk
    have := foldl_dictSet_key_mem (fun e => (mkConnInfo doc e).id)
      (fun e => mkConnInfo doc e) (connectorCandidates doc) k hk
    rcases List.mem_map.mp this with ⟨e, he, hke⟩
    exact ⟨e, he, hke.symm⟩

/-- C6 witness: at concrete inputs — an id-less package gets the synthesized
identity-derived key, an id-less connector gets key `None`. -/
theorem c6_witness :
    (mkPkgInfo [⟨[], "Package", [], none⟩] ⟨[], "Package", [], none⟩).id
      = synthId []
    ∧ (mkConnInfo bareConnectorDoc ⟨[0], "Connector", [], none⟩).id = none := by
  constructor
  · exact (c6_amended [⟨[], "Package", [], none⟩]).1 ⟨[], "Package", [], none⟩
      (by decide) (by decide) (by decide) (by decide)
  · exact (c6_amended bareConnectorDoc).2.2.1 ⟨[0], "Connector", [], none⟩
      (by decide) (by decide) (by decide)

/-- C7: a string of length at least 4 over the base64 alphabet that decodes
under `b64decode(..., validate=True)` is classified as base64 by
`_is_base64`, and a string containing any character outside the alphabet is
never classified as base64, whatever its length. -/
theorem c7_base64_detection (s : String) :
    (4 ≤ s.length → s.data.all (fun c => base64Chars.contains c) = true →
      b64decodeValidateOk s = true → is_base64 s = true)
    ∧ (∀ c ∈ s.data, base64Chars.contains c = false → is_base64 s = false) := by
  constructor
  · intro h1 h2 h3
    unfold is_base64
    rw [if_neg (by omega), h2, h3]
    rfl
  · intro c hc hcont
    unfold is_base64
    split
    · rfl
    · have hall : s.data.all (fun c => base64Chars.contains c) = false := by
        rw [List.all_eq_false]
        exact ⟨c, hc, by rw [hcont]; exact Bool.false_ne_true⟩
      rw [hall]
      rfl

/-- C7 witness: `QUJD` (length 4, alphabet-only, strict-decodable) is
classified as base64; `AA!A` contains `!` and is not. -/
theorem c7_witness : is_base64 "QUJD" = true ∧ is_base64 "AA!A" = false := by
  constructor
  · exact (c7_base64_detection "QUJD").1 (by decide) (by decide) (by decide)
  · exact (c7_base64_detection "AA!A").2 '!' (by decide) (by decide)

/-- C8 counterexample: the byte `0xFF` is undecodable as UTF-8, yet latin-1
(the second candidate encoding) decodes it, so no file content can fail
every candidate encoding; and the source's raw-bytes fallback
(`decode('utf-8', errors='ignore')`) drops the byte rather than substituting
the replacement character the claim describes. -/
theorem c8_counterexample :
    utf8DecodeStrict [255] = none
    ∧ latin1Decode [255] = [Char.ofNat 255]
    ∧ utf8DecodeIgnore [255] = []
    ∧ specReplacementDecode [255] = [Char.ofNat 0xFFFD]
    ∧ ¬ utf8DecodeIgnore [255] = specReplacementDecode [255] := by decide

/-- C8 (amended): the loader is total and never reaches the raw-bytes
fallback: for every byte content it returns the strict UTF-8 decode when that
succeeds and the (always-succeeding) latin-1 decode otherwise, whatever the
`cp1252`/`iso-8859-1`/`utf-16` codecs would do; an encoding mismatch is
therefore never fatal (only a failed read could be).  As written, the dead
fallback would drop undecodable bytes (`errors='ignore'`), not substitute
replacements. -/
theorem c8_amended (dec3 dec4 dec5 : List Nat → Option (List Char))
    (contents : List Nat) :
    read_file_with_encoding dec3 dec4 dec5 contents
      = (utf8DecodeStrict contents).getD (latin1Decode contents)
    ∧ (firstDecode [utf8DecodeStrict, fun c => some (latin1Decode c),
        dec3, dec4, dec5] contents).isSome = true := by
  cases h : utf8DecodeStrict contents with
  | some t => exact ⟨by simp [read_file_with_encoding, firstDecode, h], by simp [firstDecode, h]⟩
  | none => exact ⟨by simp [read_file_with_encoding, firstDecode, h], by simp [firstDecode, h]⟩

/-- C9: every total equals the number of recognized candidate processings
(one increment each), each id-keyed collection holds at most that many
entries, and strictly fewer whenever two candidates share an id; the diagram
total and collection are both zero on every input because diagram extraction
aborts before processing (see C3). -/
theorem c9_totals_dominate_collections (doc : XDoc) :
    (analyzeRoot doc).total_packages = (packageCandidates doc).length
    ∧ (analyzeRoot doc).packages.length ≤ (analyzeRoot doc).total_packages
    ∧ (analyzeRoot doc).total_elements = (elementCandidates doc).length
    ∧ (analyzeRoot doc).elements.length ≤ (analyzeRoot doc).total_elements
    ∧ (analyzeRoot doc).total_connectors = (connectorCandidates doc).length
    ∧ (analyzeRoot doc).connectors.length ≤ (analyzeRoot doc).total_connectors
    ∧ (analyzeRoot doc).total_diagrams = 0
    ∧ (analyzeRoot doc).diagrams.length = 0
    ∧ (¬ ((packageCandidates doc).map (fun e => (mkPkgInfo doc e).id)).Nodup →
        (analyzeRoot doc).packages.length < (analyzeRoot doc).total_packages)
    ∧ (¬ ((elementCandidates doc).map (fun e => (mkElemInfo doc e).id)).Nodup →
        (analyzeRoot doc).elements.length < (analyzeRoot doc).total_elements)
    ∧ (¬ ((connectorCandidates doc).map (fun e => (mkConnInfo doc e).id)).Nodup →
        (analyzeRoot doc).connectors.length < (analyzeRoot doc).total_connectors) := by
  obtain ⟨h1, h2, h3, h4, h5, h6, h7, h8⟩ := analyzeRoot_counts doc
  refine ⟨h1, ?_, h3, ?_, h5, ?_, h7, by rw [h8]; rfl, ?_, ?_, ?_⟩
  · rw [h1, h2]
    calc ((packageCandidates doc).map (fun e => (mkPkgInfo doc e).id)).toFinset.card
        ≤ ((packageCandidates doc).map (fun e => (mkPkgInfo doc e).id)).length :=
          List.toFinset_card_le _
      _ = (packageCandidates doc).length := List.length_map _ _
  · rw [h3, h4]
    calc ((elementCandidates doc).map (fun e => (mkElemInfo doc e).id)).toFinset.card
        ≤ ((elementCandidates doc).map (fun e => (mkElemInfo doc e).id)).length :=
          List.toFinset_card_le _
      _ = (elementCandidates doc).length := List.length_map _ _
  · rw [h5, h6]
    calc ((connectorCandidates doc).map (fun e => (mkConnInfo doc e).id)).toFinset.card
        ≤ ((connectorCandidates doc).map (fun e => (mkConnInfo doc e).id)).length :=
          List.toFinset_card_le _
      _ = (connectorCandidates doc).length := List.length_map _ _
  · intro hdup
    rw [h1, h2]
    calc ((packageCandidates doc).map (fun e => (mkPkgInfo doc e).id)).toFinset.card
        < ((packageCandidates doc).map (fun e => (mkPkgInfo doc e).id)).length :=
          toFinset_card_lt_of_not_nodup _ hdup
      _ = (packageCandidates doc).length := List.length_map _ _
  · intro hdup
    rw [h3, h4]
    calc ((elementCandidates doc).map (fun e => (mkElemInfo doc e).id)).toFinset.card
        < ((elementCandidates doc).map (fun e => (mkElemInfo doc e).id)).length :=
          toFinset_card_lt_of_not_nodup _ hdup
      _ = (elementCandidates doc).length := List.length_map _ _
  · intro hdup
    rw [h5, h6]
    calc ((connectorCandidates doc).map (fun e => (mkConnInfo doc e).id)).toFinset.card
        < ((connectorCandidates doc).map (fun e => (mkConnInfo doc e).id)).length :=
          toFinset_card_lt_of_not_nodup _ hdup
      _ = (connectorCandidates doc).length := List.length_map _ _

/-- C9 witness: two attribute-less connector nodes are both recognized and
both keyed under `None`: the total is 2 while the collection holds 1 entry. -/
theorem c9_witness :
    (analyzeRoot twoBareConnectorsDoc).connectors.length
      < (analyzeRoot twoBareConnectorsDoc).total_connectors
    ∧ (analyzeRoot twoBareConnectorsDoc).total_connectors = 2
    ∧ (analyzeRoot twoBareConnectorsDoc).connectors.length = 1 := by
  refine ⟨(c9_totals_dominate_collections twoBareConnectorsDoc).2.2.2.2.2.2.2.2.2.2
    (by decide), by decide, by decide⟩

/-- C10: placement extraction is the plain concatenation of the six search
patterns with no node-identity de-duplication, so a placement node matched by
two patterns is appended once per pattern and appears at least twice in the
diagram's final placement list. -/
theorem c10_placement_duplication (doc : XDoc) (d : XEntry) (e : XEntry)
    (h1 : e ∈ findallDescPair doc d.path "DiagramElements" "DiagramElement")
    (h2 : e ∈ findallDesc doc d.path "DiagramElement") :
    extract_diagram_elements doc d = (diagramElementSources doc d.path).map mkDiagElemInfo
    ∧ 2 ≤ (extract_diagram_elements doc d).count (mkDiagElemInfo e) := by
  refine ⟨rfl, ?_⟩
  unfold extract_diagram_elements diagramElementSources
  rw [List.map_append, List.map_append, List.map_append, List.map_append,
    List.map_append, List.count_append, List.count_append, List.count_append,
    List.count_append, List.count_append]
  have hc1 : 1 ≤ ((findallDescPair doc d.path "DiagramElements" "DiagramElement").map
      mkDiagElemInfo).count (mkDiagElemInfo e) :=
    List.count_pos_iff.mpr (List.mem_map_of_mem mkDiagElemInfo h1)
  have hc2 : 1 ≤ ((findallDesc doc d.path "DiagramElement").map
      mkDiagElemInfo).count (mkDiagElemInfo e) :=
    List.count_pos_iff.mpr (List.mem_map_of_mem mkDiagElemInfo h2)
  omega

/-- C10 witness: a `DiagramElement` inside a `DiagramElements` container
matches two patterns and its placement record appears twice. -/
theorem c10_witness :
    extract_diagram_elements nestedPlacementDoc (rootEntry nestedPlacementDoc)
      = [mkDiagElemInfo ⟨[0, 0], "DiagramElement", [("ElementID", "E1")], none⟩,
         mkDiagElemInfo ⟨[0, 0], "DiagramElement", [("ElementID", "E1")], none⟩]
    ∧ 2 ≤ (extract_diagram_elements nestedPlacementDoc
        (rootEntry nestedPlacementDoc)).count
        (mkDiagElemInfo ⟨[0, 0], "DiagramElement", [("ElementID", "E1")], none⟩) := by
  refine ⟨by decide, (c10_placement_duplication nestedPlacementDoc
    (rootEntry nestedPlacementDoc)
    ⟨[0, 0], "DiagramElement", [("ElementID", "E1")], none⟩
    (by decide) (by decide)).2⟩
